import Mathlib

/-!
Formal model of the maplibre-gl-teritorio-cluster marker reconciliation
engine.  The definitions below are a shallow embedding of the TypeScript
sources: `src/teritorio-cluster.ts` (the `TeritorioCluster` class) and
`src/utils/get-feature-id.ts`.  Machine floats (zoom levels, pixel
coordinates) are modelled as rationals; JavaScript exceptions are modelled
with `Except`; the DOM marker objects are modelled as explicit records and
every map/DOM side effect is recorded in an effect log.
-/

/-- Result of attempting to read `properties.metadata` of a feature.
`missing` covers the cases where the field is absent or not a string
(both take the same branch in the sources); `malformed` is a string that
fails `JSON.parse`; `parsed idOpt` is a string that parses to an object
whose `id` field is `idOpt`. -/
inductive Meta
  | missing
  | malformed
  | parsed (idOpt : Option String)
  deriving DecidableEq, Repr

/-- Geometry of a GeoJSON feature: only `Point` is supported by the code,
every other geometry type is collapsed into `other`. -/
inductive Geom
  | point (lng lat : ℚ)
  | other
  deriving DecidableEq, Repr

/-- A GeoJSON feature as seen by the plugin: the cluster flag and ids live
in the properties bag, `featureId` is the engine-assigned `feature.id`,
and `hasProps` records whether `feature.properties` is non-null. -/
structure Feature where
  isCluster : Bool
  featureId : Option String
  propId : Option String
  meta : Meta
  hasProps : Bool
  geom : Geom
  pointCount : Nat
  deriving DecidableEq, Repr

/-- Embedding of the exported `getFeatureId` of
`src/utils/get-feature-id.ts` up to its `catch`: the `try` body, with
`Except.error` for each `throw` site. -/
def getFeatureIdTry (f : Feature) : Except String String :=
  if !f.hasProps then
    Except.error "Feature properties are null or undefined"
  else if f.isCluster then
    match f.featureId with
    | none => Except.error "Feature is a cluster but is missing property id"
    | some i => Except.ok i
  else
    match f.meta with
    | Meta.missing =>
      match f.propId with
      | none => Except.error "Feature property id is missing"
      | some p => Except.ok p
    | Meta.malformed => Except.error "JSON parse failure"
    | Meta.parsed none => Except.error "Feature properties metadata id is missing"
    | Meta.parsed (some m) => Except.ok m

/-- Embedding of the exported `getFeatureId` of
`src/utils/get-feature-id.ts`: the `try` body with its `catch`, which
logs and degrades to `feature.id?.toString() || unknown`. -/
def getFeatureId (f : Feature) : String :=
  match getFeatureIdTry f with
  | Except.ok s => s
  | Except.error _ => f.featureId.getD "unknown"

/-- Embedding of the private `getFeatureId` method of the
`TeritorioCluster` class in `src/teritorio-cluster.ts` (lines 501-521).
Unlike the util version it has no `catch`: the `throw` for a cluster
without id escapes, and `(metadata?.id ?? feature.properties?.id).toString()`
raises a `TypeError` when both identifiers are absent. -/
def getFeatureIdMethod (f : Feature) : Except String String :=
  if !f.hasProps then
    Except.error "TypeError: cannot read properties of null"
  else if f.isCluster then
    match f.featureId with
    | none => Except.error "Cluster feature is missing id."
    | some i => Except.ok i
  else
    let metaId : Option String :=
      match f.meta with
      | Meta.parsed (some m) => some m
      | _ => none
    match metaId.orElse (fun _ => f.propId) with
    | none => Except.error "TypeError: cannot read toString of undefined"
    | some r => Except.ok r

/-- Specification-style restatement of the amended identity-resolution
contract, used to compare the util `getFeatureId` against plain words:
cluster features use the engine id; non-cluster features use the parsed
metadata id, or, when metadata is absent, the properties id; every
failure path (null properties, missing cluster id, metadata parse
failure, missing metadata id, missing properties id) degrades directly to
the feature own id and then to the sentinel. -/
def getFeatureIdSpec (f : Feature) : String :=
  let fallback := f.featureId.getD "unknown"
  if !f.hasProps then fallback
  else if f.isCluster then
    match f.featureId with
    | some i => i
    | none => fallback
  else
    match f.meta with
    | Meta.missing => (f.propId.getD fallback)
    | Meta.malformed => fallback
    | Meta.parsed none => fallback
    | Meta.parsed (some m) => m

/-- Visual representation chosen for a feature by the reconciler. -/
inductive MarkerRepr
  | plain
  | collapsed
  | unfolded
  deriving DecidableEq, Repr

/-- Constructor options of `TeritorioCluster` that the reconciliation
logic reads (defaults: `clusterMaxZoom = 17`, `clusterMinZoom = 0`,
`unfoldedClusterMaxLeaves = 7`). -/
structure Opts where
  clusterMaxZoom : ℚ
  clusterMinZoom : ℚ
  unfoldedClusterMaxLeaves : Nat
  deriving DecidableEq, Repr

/-- The unfold test of `renderCustom` (line 207 of
`src/teritorio-cluster.ts`): `minZoomLimit && (leaves.length <=
unfoldedClusterMaxLeaves || maxZoomLimit)`, with `minZoomLimit = zoom >=
clusterMinZoom` and `maxZoomLimit = zoom >= clusterMaxZoom` computed at
lines 149-150. -/
def reprDecision (minL maxL : Bool) (leafCount maxLeaves : Nat) : Bool :=
  minL && (decide (leafCount ≤ maxLeaves) || maxL)

/-- The representation `renderCustom` gives a feature: non-cluster
features always get a plain marker (lines 232-253); a cluster feature
gets the unfolded element when `reprDecision` holds and the collapsed
element otherwise (lines 204-210). -/
def selectMarkerRepr (opts : Opts) (zoom : ℚ) (isCluster : Bool) (leafCount : Nat) : MarkerRepr :=
  if !isCluster then MarkerRepr.plain
  else if reprDecision (decide (opts.clusterMinZoom ≤ zoom)) (decide (opts.clusterMaxZoom ≤ zoom)) leafCount opts.unfoldedClusterMaxLeaves then MarkerRepr.unfolded
  else MarkerRepr.collapsed

/-- A non-cluster feature whose metadata string fails to parse while both
a properties id and an engine id are present. -/
def c4MalformedFeature : Feature :=
  { isCluster := false, featureId := some "101", propId := some "456",
    meta := Meta.malformed, hasProps := true, geom := Geom.point 4 4, pointCount := 0 }

/-- A DOM bounding rectangle (`getBoundingClientRect`): `x`/`y` are the
left/top corner, so `left = x`, `right = x + width`, `top = y`,
`bottom = y + height`. -/
structure Rect where
  x : ℚ
  y : ℚ
  width : ℚ
  height : ℚ
  deriving DecidableEq, Repr

/-- A child element appended inside an unfolded cluster element by the
injected unfolded-cluster renderer; its DOM id is the leaf feature id. -/
structure ChildEl where
  eid : String
  rect : Rect
  deriving DecidableEq, Repr

/-- The root HTML element of a marker.  `unfolded` models membership of
the `teritorio-unfolded-cluster` class; `children` models the child
elements of an unfolded cluster (empty for collapsed clusters and plain
markers). -/
structure Element where
  eid : String
  unfolded : Bool
  children : List ChildEl
  rect : Rect
  deriving DecidableEq, Repr

/-- A maplibre `Marker` bound to an element and a geographic coordinate. -/
structure MarkerH where
  element : Element
  lng : ℚ
  lat : ℚ
  deriving DecidableEq, Repr

/-- The pin overlay marker produced by the injected `pinMarkerRender`
callback: a coordinate plus a pixel offset. -/
structure Pin where
  lng : ℚ
  lat : ℚ
  dx : ℚ
  dy : ℚ
  deriving DecidableEq, Repr

/-- Map and DOM side effects performed by the reconciler, recorded
chronologically: markers added to or removed from the map, pin markers
added or removed, writes to the cluster-leaves cache, the final
`markersOnScreen = newMarkers` assignment, and the resumption of an
awaited leaf fetch (recording the value of `abortExec` at resumption). -/
inductive Effect
  | markerAdd (id : String)
  | markerRemove (id : String)
  | pinAdd
  | pinRemove
  | leavesWrite (id : String)
  | markersAssign
  | suspendResume (abortNow : Nat)
  deriving DecidableEq, Repr

/-- Lookup in an association list keyed by feature id (models
`Map.prototype.get`). -/
def lookupA {α : Type} (m : List (String × α)) (k : String) : Option α :=
  (m.find? (fun p => p.1 == k)).map (fun p => p.2)

/-- Insertion in an association list (models `Map.prototype.set`): an
existing key keeps its position and gets the new value, a new key is
appended, preserving iteration order. -/
def insertA {α : Type} (m : List (String × α)) (k : String) (v : α) : List (String × α) :=
  if m.any (fun p => p.1 == k) then m.map (fun p => if p.1 == k then (k, v) else p)
  else m ++ [(k, v)]

/-- Deletion from an association list (models `Map.prototype.delete`). -/
def eraseA {α : Type} (m : List (String × α)) (k : String) : List (String × α) :=
  m.filter (fun p => p.1 != k)

/-- The mutable fields of a `TeritorioCluster` instance that the
reconciliation engine reads and writes, plus the count of pin markers
currently added to the map and the chronological effect log. -/
structure TCState where
  clusterLeaves : List (String × List Feature)
  featuresMap : List (String × Feature)
  markersOnScreen : List (String × MarkerH)
  pinMarker : Option Pin
  selectedClusterId : Option String
  selectedFeatureId : Option String
  abortExec : Nat
  initialFeature : Option Feature
  pinsOnMap : Nat
  log : List Effect
  deriving DecidableEq, Repr

/-- The state of a freshly constructed instance (`initialFeature` comes
from the constructor options). -/
def initState (g : Option Feature) : TCState :=
  { clusterLeaves := [], featuresMap := [], markersOnScreen := [],
    pinMarker := none, selectedClusterId := none, selectedFeatureId := none,
    abortExec := 0, initialFeature := g, pinsOnMap := 0, log := [] }

/-- Append one effect to the log. -/
def pushLog (s : TCState) (e : Effect) : TCState :=
  { s with log := s.log ++ [e] }

/-- Embedding of `resetPinMarker` (lines 455-461): if a pin exists it is
removed from the map and the field is nulled. -/
def resetPinMarker (s : TCState) : TCState :=
  match s.pinMarker with
  | none => s
  | some _ =>
    { s with pinMarker := none, pinsOnMap := s.pinsOnMap - 1, log := s.log ++ [Effect.pinRemove] }

/-- Embedding of `renderPinMarker` (lines 463-466): builds a pin via the
injected callback and adds it to the map, overwriting the `pinMarker`
field without removing any previous pin. -/
def renderPinMarker (s : TCState) (lng lat dx dy : ℚ) : TCState :=
  { s with pinMarker := some { lng := lng, lat := lat, dx := dx, dy := dy },
           pinsOnMap := s.pinsOnMap + 1, log := s.log ++ [Effect.pinAdd] }

/-- Embedding of `getClusterCenter` (lines 385-389): the x coordinate
`(left + right) / 2`. -/
def getClusterCenterX (r : Rect) : ℚ := (r.x + (r.x + r.width)) / 2

/-- Embedding of `getClusterCenter` (lines 385-389): the y coordinate
`(top + bottom) / 2`. -/
def getClusterCenterY (r : Rect) : ℚ := (r.y + (r.y + r.height)) / 2

/-- Embedding of `calculatePinMarkerOffset` (lines 391-396): the vector
from the cluster element optical center to the center of the selected
child element, in screen pixels. -/
def calculatePinMarkerOffset (cluster marker : Rect) : ℚ × ℚ :=
  (marker.x - getClusterCenterX cluster + marker.width / 2,
   marker.y - getClusterCenterY cluster + marker.height / 2)

/-- Embedding of `renderPinMarkerInCluster` (lines 398-413).  For a
collapsed cluster the pin sits directly on the marker; for an unfolded
cluster the child element whose DOM id equals `selectedFeatureId` is
located and the pin gets the computed offset; a missing child raises the
`Selected feature HTML marker was not found` error. -/
def renderPinMarkerInCluster (s : TCState) (el : Element) (lng lat : ℚ) : TCState × Option String :=
  if !el.unfolded then (renderPinMarker s lng lat 0 0, none)
  else
    match el.children.find? (fun c => some c.eid == s.selectedFeatureId) with
    | none => (s, some "Selected feature HTML marker was not found !")
    | some ch =>
      let off := calculatePinMarkerOffset el.rect ch.rect
      (renderPinMarker s lng lat off.1 off.2, none)

/-- The search inside `isFeatureInCluster` (line 382):
`leaves.findIndex(feature => this.getFeatureId(feature) === featureId) > -1`,
where the private `getFeatureId` may throw. -/
def leavesContain (leaves : List Feature) (fid : String) : Except String Bool :=
  match leaves with
  | [] => Except.ok false
  | l :: rest =>
    match getFeatureIdMethod l with
    | Except.error e => Except.error e
    | Except.ok i => if i == fid then Except.ok true else leavesContain rest fid

/-- Embedding of `isFeatureInCluster` (lines 376-383): a cluster id absent
from the cache logs an error and yields false; otherwise the leaf list is
searched by id. -/
def isFeatureInCluster (s : TCState) (clusterId fid : String) : Except String Bool :=
  match lookupA s.clusterLeaves clusterId with
  | none => Except.ok false
  | some leaves => leavesContain leaves fid

/-- The search inside `findClusterizedFeature` (line 432):
`value.find(feature => this.getFeatureId(feature) === id)`. -/
def findLeafIn (leaves : List Feature) (fid : String) : Except String (Option Feature) :=
  match leaves with
  | [] => Except.ok none
  | l :: rest =>
    match getFeatureIdMethod l with
    | Except.error e => Except.error e
    | Except.ok i => if i == fid then Except.ok (some l) else findLeafIn rest fid

/-- The iteration of `findClusterizedFeature` over the cached cluster
entries (lines 428-438), returning the owning cluster id with the leaf. -/
def findClusterizedIn (entries : List (String × List Feature)) (fid : String) :
    Except String (Option (String × Feature)) :=
  match entries with
  | [] => Except.ok none
  | (cid, leaves) :: rest =>
    match findLeafIn leaves fid with
    | Except.error e => Except.error e
    | Except.ok (some l) => Except.ok (some (cid, l))
    | Except.ok none => findClusterizedIn rest fid

/-- Embedding of `findClusterizedFeature` (lines 428-438). -/
def findClusterizedFeature (s : TCState) (fid : String) : Except String (Option (String × Feature)) :=
  findClusterizedIn s.clusterLeaves fid

/-- Embedding of `findFeature` (lines 424-426): the top-level features map
takes precedence over the cached cluster leaves. -/
def findFeature (s : TCState) (fid : String) :
    Except String (Option (Feature ⊕ (String × Feature))) :=
  match lookupA s.featuresMap fid with
  | some f => Except.ok (some (Sum.inl f))
  | none =>
    match findClusterizedFeature s fid with
    | Except.error e => Except.error e
    | Except.ok r => Except.ok (r.map Sum.inr)

/-- Embedding of `resetSelectedFeature` (lines 287-291): clears both
selection identifiers and removes the pin unconditionally. -/
def resetSelectedFeature (s : TCState) : TCState :=
  resetPinMarker { s with selectedClusterId := none, selectedFeatureId := none }

/-- Embedding of `setSelectedFeature` (lines 293-330).  The second
component is the uncaught JavaScript exception, if any; on an exception
the state mutations that already happened persist. -/
def setSelectedFeature (s : TCState) (f : Feature) : TCState × Option String :=
  match getFeatureIdMethod f with
  | Except.error e => (s, some e)
  | Except.ok id =>
    match findFeature s id with
    | Except.error e => (s, some e)
    | Except.ok none =>
      match f.geom with
      | Geom.other => (s, none)
      | Geom.point lng lat =>
        let s1 := resetSelectedFeature s
        let s2 := { s1 with selectedFeatureId := some id }
        (renderPinMarker s2 lng lat 0 0, none)
    | Except.ok (some m) =>
      let s1 := resetSelectedFeature s
      let s2 := { s1 with selectedFeatureId := some id }
      match m with
      | Sum.inl feat =>
        match feat.geom with
        | Geom.point lng lat => (renderPinMarker s2 lng lat 0 0, none)
        | Geom.other => (s2, none)
      | Sum.inr (cid, leaf) =>
        match leaf.geom with
        | Geom.other => (s2, none)
        | Geom.point _ _ =>
          match lookupA s2.markersOnScreen cid with
          | none => (s2, none)
          | some cm =>
            let s3 := { s2 with selectedClusterId := some cid }
            renderPinMarkerInCluster s3 cm.element cm.lng cm.lat

/-- Embedding of `featureClickHandler` (lines 440-453).  The second
component tells whether the `feature-click` event was dispatched; the
third is an uncaught exception. -/
def featureClickHandler (s : TCState) (isHTMLTarget : Bool) (f : Feature) :
    TCState × Bool × Option String :=
  if !isHTMLTarget then (s, false, none)
  else
    match getFeatureIdMethod f with
    | Except.error e => (s, false, some e)
    | Except.ok id =>
      if s.selectedFeatureId == some id then (s, false, none)
      else
        match setSelectedFeature s f with
        | (s1, some e) => (s1, false, some e)
        | (s1, none) => (s1, true, none)

/-- The leaf feature `abc` used by the C7 witness scenario. -/
def c7Leaf : Feature :=
  { isCluster := false, featureId := none, propId := some "abc",
    meta := Meta.missing, hasProps := true, geom := Geom.point 3 4, pointCount := 0 }

/-- The unfolded marker of cluster `12` used by the C7 witness scenario:
its element has one child (the leaf `abc`) with a concrete bounding box. -/
def c7Marker : MarkerH :=
  { element := { eid := "12", unfolded := true,
                 children := [{ eid := "abc", rect := { x := 10, y := 20, width := 24, height := 24 } }],
                 rect := { x := 0, y := 0, width := 100, height := 100 } },
    lng := 7, lat := 8 }

/-- A state whose cached leaves for cluster `12` contain `abc` while the
top-level feature map does not, with the cluster marker on screen. -/
def c7State : TCState :=
  { initState none with
      clusterLeaves := [("12", [c7Leaf])],
      markersOnScreen := [("12", c7Marker)] }

/-- The environment of one update cycle: the host map state consumed by
`renderCustom` — readiness of map and source, the current zoom, the
visible features returned by `querySourceFeatures`, the behaviour of the
async `getClusterLeaves` calls (success flag and result per cluster id),
the number of external `abortExec` increments delivered while the n-th
leaf fetch of the cycle is pending, and the bounding boxes the rendered
DOM elements end up with. -/
structure CycleEnv where
  ready : Bool
  zoom : ℚ
  features : List Feature
  fetchOk : String → Bool
  fetchLeaves : String → List Feature
  incrDuring : Nat → Nat
  childRect : String → String → Rect
  clusterRect : String → Rect
  markerRect : String → Rect

/-- How the marker-fetch loop of `renderCustom` (lines 155-171) ended. -/
inductive Phase1Exit
  | go
  | abortedLoop
  | abortedFetch
  | failed
  | threw (e : String)
  deriving DecidableEq, Repr

/-- Result of the fetch loop: the state reached and the exit kind. -/
structure Phase1Res where
  state : TCState
  exit : Phase1Exit
  deriving Repr

/-- Embedding of the `for (const feature of features)` loop of
`renderCustom` (lines 155-171) together with `loadClusterLeaves` (lines
468-483).  `fetchIdx` counts the awaits already performed, indexing
`incrDuring`.  Each cluster feature suspends: the pending increments are
applied to `abortExec`, the resolved leaves are written to the cache
(before any generation check, exactly as in the source), then the
generation is checked and a failed fetch aborts the cycle. -/
def phase1 (c : Nat) (env : CycleEnv) (s : TCState) (fs : List Feature) (fetchIdx : Nat) : Phase1Res :=
  match fs with
  | [] => { state := s, exit := Phase1Exit.go }
  | f :: rest =>
    if s.abortExec ≠ c then { state := s, exit := Phase1Exit.abortedLoop }
    else
      match getFeatureIdMethod f with
      | Except.error e => { state := s, exit := Phase1Exit.threw e }
      | Except.ok id =>
        let s1 := { s with featuresMap := insertA s.featuresMap id f }
        if f.hasProps && f.isCluster then
          let newAbort := s1.abortExec + env.incrDuring fetchIdx
          let s2 := { s1 with abortExec := newAbort, log := s1.log ++ [Effect.suspendResume newAbort] }
          if env.fetchOk id then
            let s3 := { s2 with clusterLeaves := insertA s2.clusterLeaves id (env.fetchLeaves id),
                                log := s2.log ++ [Effect.leavesWrite id] }
            if s3.abortExec ≠ c then { state := s3, exit := Phase1Exit.abortedFetch }
            else phase1 c env s3 rest (fetchIdx + 1)
          else
            if s2.abortExec ≠ c then { state := s2, exit := Phase1Exit.abortedFetch }
            else { state := s2, exit := Phase1Exit.failed }
        else phase1 c env s1 rest fetchIdx

/-- The teardown test of `renderCustom` (lines 193-198): an existing
cluster marker is destroyed when any of the four zoom/class disjuncts
holds.  `onScreen` is `markersOnScreen.has(id)`. -/
def teardownCond (maxL minL : Bool) (marker : Option MarkerH) (onScreen : Bool) : Bool :=
  match marker with
  | none => false
  | some m =>
    (maxL && !m.element.unfolded)
    || (!maxL && m.element.unfolded && onScreen)
    || (minL && !m.element.unfolded)
    || (!minL && m.element.unfolded && onScreen)

/-- Embedding of the selected-feature pin block of `renderCustom` (lines
216-220), run after a cluster marker has been rebuilt. -/
def pinBlockClusterSelected (s : TCState) (id : String) (el : Element) (lng lat : ℚ) :
    TCState × Option String :=
  match s.pinMarker, s.selectedFeatureId with
  | some _, some selId =>
    match isFeatureInCluster s id selId with
    | Except.error e => (s, some e)
    | Except.ok false => (s, none)
    | Except.ok true =>
      let s1 := { s with selectedClusterId := some id }
      let s2 := resetPinMarker s1
      renderPinMarkerInCluster s2 el lng lat
  | _, _ => (s, none)

/-- Embedding of the initial-feature pin block of `renderCustom` (lines
224-229): when the configured initial feature belongs to the freshly
built cluster, the selection is recorded and a pin is rendered — without
removing any existing pin. -/
def pinBlockClusterInitial (s : TCState) (id : String) (el : Element) (lng lat : ℚ) :
    TCState × Option String :=
  match s.initialFeature with
  | none => (s, none)
  | some g =>
    match getFeatureIdMethod g with
    | Except.error e => (s, some e)
    | Except.ok gid =>
      match isFeatureInCluster s id gid with
      | Except.error e => (s, some e)
      | Except.ok false => (s, none)
      | Except.ok true =>
        let s1 := { s with selectedClusterId := some id, selectedFeatureId := some gid }
        match renderPinMarkerInCluster s1 el lng lat with
        | (s2, some e) => (s2, some e)
        | (s2, none) => ({ s2 with initialFeature := none }, none)

/-- Embedding of the re-pin block of the plain-marker branch (lines
240-243): an existing pin for this very feature is removed and rendered
again on top. -/
def pinBlockPlainSelected (s : TCState) (id : String) (lng lat : ℚ) : TCState :=
  match s.pinMarker with
  | some _ =>
    if s.selectedFeatureId == some id then renderPinMarker (resetPinMarker s) lng lat 0 0
    else s
  | none => s

/-- Embedding of the initial-feature block of the plain-marker branch
(lines 247-251): again no existing pin is removed first. -/
def pinBlockPlainInitial (s : TCState) (id : String) (lng lat : ℚ) : TCState × Option String :=
  match s.initialFeature with
  | none => (s, none)
  | some g =>
    match getFeatureIdMethod g with
    | Except.error e => (s, some e)
    | Except.ok gid =>
      if gid == id then
        let s1 := { s with selectedFeatureId := some id }
        let s2 := renderPinMarker s1 lng lat 0 0
        ({ s2 with initialFeature := none }, none)
      else (s, none)

/-- The tail of the cluster-marker creation of `renderCustom` (lines
212-230): the marker is added to the map and the two pin blocks run.
Returns the updated state and either the new marker or the escaped
exception. -/
def clusterMarkerPinBlocks (s : TCState) (id : String) (el : Element) (lng lat : ℚ) :
    TCState × Except String MarkerH :=
  let m : MarkerH := { element := el, lng := lng, lat := lat }
  let s1 := pushLog s (Effect.markerAdd id)
  match pinBlockClusterSelected s1 id el lng lat with
  | (s2, some e) => (s2, Except.error e)
  | (s2, none) =>
    match pinBlockClusterInitial s2 id el lng lat with
    | (s3, some e) => (s3, Except.error e)
    | (s3, none) => (s3, Except.ok m)

/-- The element construction of lines 204-212: the unfold test picks the
unfolded element (one child per leaf, built through the private
`getFeatureId`, which may throw) or the collapsed element. -/
def clusterMarkerElement (opts : Opts) (env : CycleEnv) (minL maxL : Bool)
    (id : String) (leaves : List Feature) : Except String Element :=
  if reprDecision minL maxL leaves.length opts.unfoldedClusterMaxLeaves then
    match leaves.mapM (fun l => (getFeatureIdMethod l).map
        (fun lid => ({ eid := lid, rect := env.childRect id lid } : ChildEl))) with
    | Except.error e => Except.error e
    | Except.ok chs =>
      Except.ok { eid := id, unfolded := true, children := chs, rect := env.clusterRect id }
  else Except.ok { eid := id, unfolded := false, children := [], rect := env.clusterRect id }

/-- Marker creation for a cluster feature, composing the element choice,
the map add, and the two pin blocks. -/
def createClusterMarker (opts : Opts) (env : CycleEnv) (minL maxL : Bool) (s : TCState)
    (id : String) (leaves : List Feature) (lng lat : ℚ) : TCState × Except String MarkerH :=
  match clusterMarkerElement opts env minL maxL id leaves with
  | Except.error e => (s, Except.error e)
  | Except.ok el => clusterMarkerPinBlocks s id el lng lat

/-- Accumulator of the `featuresMap.forEach` pass of `renderCustom`
(lines 173-256): the threaded instance state, the `newMarkers` map under
construction, and the exception that stopped the iteration, if any. -/
structure Phase2Acc where
  state : TCState
  newMarkers : List (String × MarkerH)
  err : Option String
  deriving Repr

/-- Embedding of the body of the `featuresMap.forEach` callback of
`renderCustom` (lines 173-256) for one feature. -/
def processFeature (opts : Opts) (env : CycleEnv) (minL maxL : Bool)
    (acc : Phase2Acc) (f : Feature) : Phase2Acc :=
  match acc.err with
  | some _ => acc
  | none =>
    match getFeatureIdMethod f with
    | Except.error e => { acc with err := some e }
    | Except.ok id =>
      match f.geom with
      | Geom.other => acc
      | Geom.point lng lat =>
        let s := acc.state
        if f.isCluster then
          match lookupA s.clusterLeaves id with
          | none => acc
          | some leaves =>
            let marker0 := lookupA s.markersOnScreen id
            let td := teardownCond maxL minL marker0 (lookupA s.markersOnScreen id).isSome
            let s1 := if td then
                { s with markersOnScreen := eraseA s.markersOnScreen id,
                         log := s.log ++ [Effect.markerRemove id] }
              else s
            match if td then none else marker0 with
            | some m => { acc with state := s1, newMarkers := insertA acc.newMarkers id m }
            | none =>
              match createClusterMarker opts env minL maxL s1 id leaves lng lat with
              | (s2, Except.error e) => { state := s2, newMarkers := acc.newMarkers, err := some e }
              | (s2, Except.ok m) =>
                { state := s2, newMarkers := insertA acc.newMarkers id m, err := none }
        else
          match lookupA s.markersOnScreen id with
          | some m => { acc with newMarkers := insertA acc.newMarkers id m }
          | none =>
            let el : Element :=
              { eid := id, unfolded := false, children := [], rect := env.markerRect id }
            let m : MarkerH := { element := el, lng := lng, lat := lat }
            let s1 := pushLog s (Effect.markerAdd id)
            let s2 := pinBlockPlainSelected s1 id lng lat
            match pinBlockPlainInitial s2 id lng lat with
            | (s3, some e) => { state := s3, newMarkers := acc.newMarkers, err := some e }
            | (s3, none) =>
              { state := s3, newMarkers := insertA acc.newMarkers id m, err := none }

/-- Embedding of the stale-marker sweep of `renderCustom` (lines
259-262): every id still in `markersOnScreen` but absent from
`newMarkers` has its marker removed from the map. -/
def removalLoop (s : TCState) (newMarkers : List (String × MarkerH)) : TCState :=
  s.markersOnScreen.foldl
    (fun t p => if (lookupA newMarkers p.1).isSome then t else pushLog t (Effect.markerRemove p.1))
    s

/-- Embedding of the trailing initial-feature block and the final commit
of `renderCustom` (lines 264-281).  A non-Point initial feature returns
before the commit, leaving `markersOnScreen` unassigned. -/
def tailInitial (s : TCState) (newMarkers : List (String × MarkerH)) : TCState :=
  match s.initialFeature with
  | none =>
    { s with markersOnScreen := newMarkers, log := s.log ++ [Effect.markersAssign] }
  | some g =>
    if s.selectedFeatureId.isNone && s.pinMarker.isNone then
      match getFeatureIdMethod g with
      | Except.error _ => s
      | Except.ok gid =>
        match g.geom with
        | Geom.other => s
        | Geom.point lng lat =>
          let s1 := { s with selectedFeatureId := some gid }
          let s2 := renderPinMarker s1 lng lat 0 0
          { s2 with initialFeature := none, markersOnScreen := newMarkers,
                    log := s2.log ++ [Effect.markersAssign] }
    else { s with markersOnScreen := newMarkers, log := s.log ++ [Effect.markersAssign] }

/-- Embedding of `renderCustom` (lines 141-281): the `shouldRender`
guard, the render-state clear, the fetch loop, the per-feature forEach,
the stale-marker sweep, the trailing initial-feature block, and the
commit.  `c` is the `currentExec` argument. -/
def renderCustom (opts : Opts) (c : Nat) (env : CycleEnv) (s : TCState) : TCState :=
  if !(env.ready && (s.abortExec == c)) then s
  else
    let s0 := { s with clusterLeaves := [], featuresMap := [] }
    let minL := decide (opts.clusterMinZoom ≤ env.zoom)
    let maxL := decide (opts.clusterMaxZoom ≤ env.zoom)
    let p1 := phase1 c env s0 env.features 0
    match p1.exit with
    | Phase1Exit.go =>
      let acc := p1.state.featuresMap.foldl
        (fun a p => processFeature opts env minL maxL a p.2)
        { state := p1.state, newMarkers := [], err := none }
      match acc.err with
      | some _ => acc.state
      | none => tailInitial (removalLoop acc.state acc.newMarkers) acc.newMarkers
    | _ => p1.state

/-- Embedding of the `moveend`/`sourcedata` trigger (lines 129-139):
`abortExec` is incremented and `renderCustom` is called with the new
generation value. -/
def triggerRender (opts : Opts) (env : CycleEnv) (s : TCState) : TCState :=
  renderCustom opts (s.abortExec + 1) env { s with abortExec := s.abortExec + 1 }

/-- The states a `TeritorioCluster` instance can reach from construction
through its public operations and event handlers. -/
inductive Reachable (opts : Opts) : TCState → Prop
  | init (g : Option Feature) : Reachable opts (initState g)
  | render (env : CycleEnv) (s : TCState) :
      Reachable opts s → Reachable opts (triggerRender opts env s)
  | select (f : Feature) (s : TCState) :
      Reachable opts s → Reachable opts (setSelectedFeature s f).1
  | reset (s : TCState) :
      Reachable opts s → Reachable opts (resetSelectedFeature s)
  | click (t : Bool) (f : Feature) (s : TCState) :
      Reachable opts s → Reachable opts (featureClickHandler s t f).1

/-- Effects that create, destroy or commit markers or pins on the map
(as opposed to cache writes and fetch resumptions). -/
def isMarkerEffect : Effect → Bool
  | Effect.markerAdd _ => true
  | Effect.markerRemove _ => true
  | Effect.pinAdd => true
  | Effect.pinRemove => true
  | Effect.markersAssign => true
  | _ => false

/-- The default constructor options. -/
def demoOpts : Opts := { clusterMaxZoom := 17, clusterMinZoom := 0, unfoldedClusterMaxLeaves := 7 }

/-- A zero rectangle for layouts whose geometry is irrelevant. -/
def rect0 : Rect := { x := 0, y := 0, width := 0, height := 0 }

/-- A plain leaf feature with properties id `a`. -/
def demoLeafA : Feature :=
  { isCluster := false, featureId := none, propId := some "a",
    meta := Meta.missing, hasProps := true, geom := Geom.point 1 1, pointCount := 0 }

/-- A plain leaf feature with properties id `b`. -/
def demoLeafB : Feature := { demoLeafA with propId := some "b" }

/-- A plain leaf feature with properties id `c`. -/
def demoLeafC : Feature := { demoLeafA with propId := some "c" }

/-- A 3-leaf cluster feature with engine id `1`. -/
def demoCluster : Feature :=
  { isCluster := true, featureId := some "1", propId := none,
    meta := Meta.missing, hasProps := true, geom := Geom.point 1 2, pointCount := 3 }

/-- A quiet environment showing the 3-leaf cluster at zoom 10: fetches
succeed and no newer cycle arrives during any fetch. -/
def demoEnv : CycleEnv :=
  { ready := true, zoom := 10, features := [demoCluster],
    fetchOk := fun _ => true, fetchLeaves := fun _ => [demoLeafA, demoLeafB, demoLeafC],
    incrDuring := fun _ => 0, childRect := fun _ _ => rect0,
    clusterRect := fun _ => rect0, markerRect := fun _ => rect0 }

/-- The same environment except that one newer cycle is triggered while
the (only) leaf fetch is pending. -/
def demoStaleEnv : CycleEnv := { demoEnv with incrDuring := fun _ => 1 }

/-- The same environment except that the leaf fetch fails. -/
def demoFailEnv : CycleEnv := { demoEnv with fetchOk := fun _ => false }

/-- The state of cycle generation 1, before `renderCustom 1` runs. -/
def demoStart : TCState := { initState none with abortExec := 1 }

/-- The plain on-screen marker for feature `a` in the C3 witness. -/
def c3MarkerA : MarkerH :=
  { element := { eid := "a", unfolded := false, children := [], rect := rect0 },
    lng := 1, lat := 1 }

/-- The unfolded on-screen marker for cluster `1` in the C3 witness. -/
def c3MarkerCl : MarkerH :=
  { element := { eid := "1", unfolded := true, children := [], rect := rect0 },
    lng := 1, lat := 2 }

/-- The accumulator of a forEach pass that already shows a plain marker
for id `a` and an unfolded marker for cluster `1`. -/
def c3Acc : Phase2Acc :=
  { state := { initState none with
      markersOnScreen := [("a", c3MarkerA), ("1", c3MarkerCl)],
      clusterLeaves := [("1", [demoLeafA, demoLeafB, demoLeafC])] },
    newMarkers := [], err := none }

/-- The pin-selection invariant of claim C6: whenever a pin marker is
referenced, a selected feature id is recorded. -/
def pinSelInv (s : TCState) : Prop :=
  s.pinMarker.isSome = true → s.selectedFeatureId.isSome = true

/-- The configured initial feature of the C6 scenario: a plain feature
`B` that the data source will report. -/
def c6FeatureB : Feature :=
  { isCluster := false, featureId := none, propId := some "B",
    meta := Meta.missing, hasProps := true, geom := Geom.point 5 6, pointCount := 0 }

/-- An unrelated plain feature `A`, not part of the data source, that the
user selects before the first render. -/
def c6FeatureA : Feature :=
  { isCluster := false, featureId := none, propId := some "A",
    meta := Meta.missing, hasProps := true, geom := Geom.point 9 9, pointCount := 0 }

/-- An environment whose query returns only feature `B`. -/
def c6Env : CycleEnv := { demoEnv with features := [c6FeatureB] }

/-- The state after constructing with `initialFeature = B` and selecting
`A`: one pin on the map. -/
def c6Mid : TCState := (setSelectedFeature (initState (some c6FeatureB)) c6FeatureA).1

/-- The state after the first render cycle: the initial-feature block of
the plain-marker branch rendered a second pin without removing the pin of
`A`. -/
def c6End : TCState := triggerRender demoOpts c6Env c6Mid

/-- The claim C1 case split, proved about `selectMarkerRepr`. -/
theorem selectMarkerRepr_cases (opts : Opts) (zoom : ℚ) (lc : Nat) :
    (zoom < opts.clusterMinZoom → selectMarkerRepr opts zoom true lc = MarkerRepr.collapsed)
    ∧ (opts.clusterMinZoom ≤ zoom → (lc ≤ opts.unfoldedClusterMaxLeaves ∨ opts.clusterMaxZoom ≤ zoom) →
        selectMarkerRepr opts zoom true lc = MarkerRepr.unfolded)
    ∧ (opts.clusterMinZoom ≤ zoom → opts.unfoldedClusterMaxLeaves < lc → zoom < opts.clusterMaxZoom →
        selectMarkerRepr opts zoom true lc = MarkerRepr.collapsed)
    ∧ selectMarkerRepr opts zoom false lc = MarkerRepr.plain := by
  refine ⟨?_, ?_, ?_, ?_⟩
  · intro h
    simp [selectMarkerRepr, reprDecision, not_le.mpr h]
  · intro h1 h2
    rcases h2 with h2 | h2 <;> simp [selectMarkerRepr, reprDecision, h1, h2]
  · intro h1 h2 h3
    simp [selectMarkerRepr, reprDecision, h1, not_le.mpr h2, not_le.mpr h3]
  · simp [selectMarkerRepr]

/-- C1: for every cluster feature processed in a committed cycle the
representation is Collapsed below `clusterMinZoom`; Unfolded at or above
`clusterMinZoom` when the leaf count is at most `unfoldedClusterMaxLeaves`
or the zoom is at or above `clusterMaxZoom`; Collapsed otherwise; and
every non-cluster feature is rendered plain.  With the defaults
(minZoom 0, maxZoom 17, maxLeaves 7) a 3-leaf cluster at zoom 10 is
Unfolded. -/
theorem c1_representation_selection (opts : Opts) (zoom : ℚ) (lc : Nat) :
    (zoom < opts.clusterMinZoom → selectMarkerRepr opts zoom true lc = MarkerRepr.collapsed)
    ∧ (opts.clusterMinZoom ≤ zoom → (lc ≤ opts.unfoldedClusterMaxLeaves ∨ opts.clusterMaxZoom ≤ zoom) →
        selectMarkerRepr opts zoom true lc = MarkerRepr.unfolded)
    ∧ (opts.clusterMinZoom ≤ zoom → opts.unfoldedClusterMaxLeaves < lc → zoom < opts.clusterMaxZoom →
        selectMarkerRepr opts zoom true lc = MarkerRepr.collapsed)
    ∧ selectMarkerRepr opts zoom false lc = MarkerRepr.plain
    ∧ selectMarkerRepr ⟨17, 0, 7⟩ 10 true 3 = MarkerRepr.unfolded := by
  refine ⟨(selectMarkerRepr_cases opts zoom lc).1, (selectMarkerRepr_cases opts zoom lc).2.1,
    (selectMarkerRepr_cases opts zoom lc).2.2.1, (selectMarkerRepr_cases opts zoom lc).2.2.2, ?_⟩
  simp [selectMarkerRepr, reprDecision]

/-- Witness for C1: the defaults give a 3-leaf cluster Unfolded at zoom 10
and a 10-leaf cluster Collapsed at zoom 5, by the theorem applied at
concrete inputs. -/
theorem c1_representation_selection_witness :
    selectMarkerRepr ⟨17, 0, 7⟩ 5 true 10 = MarkerRepr.collapsed ∧
    selectMarkerRepr ⟨17, 0, 7⟩ 10 true 3 = MarkerRepr.unfolded := by
  refine ⟨(c1_representation_selection ⟨17, 0, 7⟩ 5 10).2.2.1 (by norm_num) (by norm_num) (by norm_num), ?_⟩
  exact (c1_representation_selection ⟨17, 0, 7⟩ 10 3).2.1 (by norm_num) (Or.inl (by norm_num))

/-- C4 counterexample: on metadata parse failure the claim requires the
resolver to degrade to the plain properties identifier `456`; the code
catch clause degrades directly to the feature own id `101` instead
(exactly the behaviour fixed by the repository test `should return
feature id if metadata is malformed but feature has id`). -/
theorem c4_counterexample :
    getFeatureId c4MalformedFeature = "101" ∧ getFeatureId c4MalformedFeature ≠ "456" := by
  constructor <;> decide

/-- C4 amended: identity resolution never throws; cluster features use the
engine id, degrading to the feature own id or the sentinel when it is
absent (the internal throw is caught); non-cluster features use the parsed
metadata id, or the properties id when metadata is absent or not a string,
while every failure path (null properties, metadata parse failure, missing
metadata id, missing properties id) degrades directly to the feature own
id then the sentinel unknown. -/
theorem c4_identity_resolution (f : Feature) : getFeatureId f = getFeatureIdSpec f := by
  rcases f with ⟨ic, fid, pid, meta, hp, g, pc⟩
  cases hp <;> cases ic <;> cases meta <;>
    simp [getFeatureId, getFeatureIdTry, getFeatureIdSpec] <;>
    first
    | rfl
    | (cases pid <;> cases fid <;> rfl)
    | (rename_i idOpt; cases idOpt <;> cases fid <;> rfl)

/-- C9: `resetSelectedFeature` leaves the selection state fully cleared
from any state whatsoever (hence in particular at any point after a
`setSelectedFeature` call): both identifiers are null, the `pinMarker`
field is null, and the pin that was on the map has been removed (the
count of pins on the map drops by one exactly when a pin was present). -/
theorem c9_reset_clears_selection (s : TCState) :
    (resetSelectedFeature s).selectedFeatureId = none
    ∧ (resetSelectedFeature s).selectedClusterId = none
    ∧ (resetSelectedFeature s).pinMarker = none
    ∧ (resetSelectedFeature s).pinsOnMap = s.pinsOnMap - (if s.pinMarker.isSome then 1 else 0) := by
  cases h : s.pinMarker <;>
    simp [resetSelectedFeature, resetPinMarker, h]

/-- C10: clicking the marker of the feature that is already selected is a
complete no-op: the state is returned unchanged, no exception escapes and
the feature-click event is not dispatched; moreover the event is ever
dispatched only when the clicked feature differs from the current
selection. -/
theorem c10_click_selected_noop (s : TCState) (f : Feature) (id : String)
    (hid : getFeatureIdMethod f = Except.ok id) :
    (s.selectedFeatureId = some id → featureClickHandler s true f = (s, false, none))
    ∧ (∀ t : Bool, (featureClickHandler s t f).2.1 = true → s.selectedFeatureId ≠ some id) := by
  constructor
  · intro hsel
    simp [featureClickHandler, hid, hsel]
  · intro t hdis heq
    cases t with
    | false => simp [featureClickHandler] at hdis
    | true =>
      rw [featureClickHandler] at hdis
      simp [hid, heq] at hdis

/-- Witness for C10: a concrete state whose selected feature id is `X`
and a click on a feature resolving to `X` returns the state unchanged
with no event, via the theorem applied at that input. -/
theorem c10_click_selected_noop_witness :
    featureClickHandler
      { initState none with selectedFeatureId := some "X" } true
      { isCluster := false, featureId := none, propId := some "X",
        meta := Meta.missing, hasProps := true, geom := Geom.point 1 1, pointCount := 0 }
      = ({ initState none with selectedFeatureId := some "X" }, false, none) :=
  (c10_click_selected_noop
    { initState none with selectedFeatureId := some "X" }
    { isCluster := false, featureId := none, propId := some "X",
      meta := Meta.missing, hasProps := true, geom := Geom.point 1 1, pointCount := 0 }
    "X" rfl).1 rfl

/-- C7: selecting a feature that is absent from the top-level feature map
but present in the cached leaves of cluster `cid` records `cid` as the
selected cluster id, records the feature id as selected, and places the
pin relative to the current representation of that cluster marker:
directly on the marker when it is collapsed, and offset by the vector
from the cluster element bounding-box center to the selected child
element bounding-box center when it is unfolded. -/
theorem c7_select_feature_in_cluster (s : TCState) (f : Feature) (fid cid : String)
    (leaf : Feature) (cm : MarkerH) (a b : ℚ)
    (hid : getFeatureIdMethod f = Except.ok fid)
    (htop : lookupA s.featuresMap fid = none)
    (hfind : findClusterizedFeature s fid = Except.ok (some (cid, leaf)))
    (hgeom : leaf.geom = Geom.point a b)
    (hmk : lookupA s.markersOnScreen cid = some cm) :
    ((setSelectedFeature s f).1.selectedFeatureId = some fid
      ∧ (setSelectedFeature s f).1.selectedClusterId = some cid)
    ∧ (cm.element.unfolded = false →
        (setSelectedFeature s f).1.pinMarker = some { lng := cm.lng, lat := cm.lat, dx := 0, dy := 0 }
        ∧ (setSelectedFeature s f).2 = none)
    ∧ (cm.element.unfolded = true →
        ∀ ch, cm.element.children.find? (fun c => c.eid == fid) = some ch →
          (setSelectedFeature s f).1.pinMarker =
            some { lng := cm.lng, lat := cm.lat,
                   dx := (calculatePinMarkerOffset cm.element.rect ch.rect).1,
                   dy := (calculatePinMarkerOffset cm.element.rect ch.rect).2 }
          ∧ (setSelectedFeature s f).2 = none) := by
  have hresetM : (resetSelectedFeature s).markersOnScreen = s.markersOnScreen := by
    cases h : s.pinMarker <;> simp [resetSelectedFeature, resetPinMarker, h]
  have hff : findFeature s fid = Except.ok (some (Sum.inr (cid, leaf))) := by
    simp [findFeature, htop, hfind]
  simp only [setSelectedFeature, hid, hff, hgeom, renderPinMarkerInCluster, hresetM, hmk]
  cases hu : cm.element.unfolded with
  | false =>
    simp [renderPinMarker]
  | true =>
    refine ⟨⟨?_, ?_⟩, by simp, ?_⟩
    · cases hch : cm.element.children.find? (fun c => c.eid == fid) <;>
        simp [hch, renderPinMarker]
    · cases hch : cm.element.children.find? (fun c => c.eid == fid) <;>
        simp [hch, renderPinMarker]
    · intro _ ch hch
      simp [hch, renderPinMarker]

/-- Witness for C7: selecting `abc`, which lives only inside cached
cluster `12`, records `selectedClusterId = 12` and pins at the cluster
coordinate with the offset from the cluster box center (50, 50) to the
child box center (22, 32). -/
theorem c7_select_feature_in_cluster_witness :
    (setSelectedFeature c7State c7Leaf).1.selectedClusterId = some "12"
    ∧ (setSelectedFeature c7State c7Leaf).1.pinMarker =
        some { lng := 7, lat := 8, dx := -28, dy := -18 } := by
  have h := c7_select_feature_in_cluster c7State c7Leaf "abc" "12" c7Leaf c7Marker 3 4
    rfl rfl rfl rfl rfl
  refine ⟨h.1.2, ?_⟩
  have h2 := (h.2.2 rfl { eid := "abc", rect := { x := 10, y := 20, width := 24, height := 24 } } rfl).1
  rw [h2]
  norm_num [calculatePinMarkerOffset, getClusterCenterX, getClusterCenterY, c7Marker]

/-- The fetch loop never touches the marker set, the selection state, the
pin count, or the initial feature. -/
theorem phase1_preserves (c : Nat) (env : CycleEnv) (fs : List Feature) :
    ∀ (s : TCState) (i : Nat),
      (phase1 c env s fs i).state.markersOnScreen = s.markersOnScreen
      ∧ (phase1 c env s fs i).state.pinMarker = s.pinMarker
      ∧ (phase1 c env s fs i).state.selectedFeatureId = s.selectedFeatureId
      ∧ (phase1 c env s fs i).state.selectedClusterId = s.selectedClusterId
      ∧ (phase1 c env s fs i).state.pinsOnMap = s.pinsOnMap
      ∧ (phase1 c env s fs i).state.initialFeature = s.initialFeature := by
  induction fs with
  | nil => intro s i; exact ⟨rfl, rfl, rfl, rfl, rfl, rfl⟩
  | cons f rest ih =>
    intro s i
    rw [phase1]
    by_cases hab : s.abortExec ≠ c
    · rw [if_pos hab]; exact ⟨rfl, rfl, rfl, rfl, rfl, rfl⟩
    · rw [if_neg hab]
      cases hgid : getFeatureIdMethod f with
      | error e => exact ⟨rfl, rfl, rfl, rfl, rfl, rfl⟩
      | ok id =>
        dsimp only
        by_cases hcl : (f.hasProps && f.isCluster) = true
        · rw [if_pos hcl]
          by_cases hok : env.fetchOk id = true
          · rw [if_pos hok]
            by_cases hab2 : s.abortExec + env.incrDuring i ≠ c
            · rw [if_pos hab2]; exact ⟨rfl, rfl, rfl, rfl, rfl, rfl⟩
            · rw [if_neg hab2]; exact ih _ (i + 1)
          · rw [if_neg hok]
            by_cases hab2 : s.abortExec + env.incrDuring i ≠ c
            · rw [if_pos hab2]; exact ⟨rfl, rfl, rfl, rfl, rfl, rfl⟩
            · rw [if_neg hab2]; exact ⟨rfl, rfl, rfl, rfl, rfl, rfl⟩
        · rw [if_neg hcl]; exact ih _ i

/-- The fetch loop only appends suspension and cache-write effects to the
log: no marker or pin effect is produced before the forEach pass. -/
theorem phase1_log (c : Nat) (env : CycleEnv) (fs : List Feature) :
    ∀ (s : TCState) (i : Nat),
      ∃ d, (phase1 c env s fs i).state.log = s.log ++ d
        ∧ d.all (fun e => !isMarkerEffect e) = true := by
  induction fs with
  | nil => intro s i; exact ⟨[], by simp [phase1], rfl⟩
  | cons f rest ih =>
    intro s i
    rw [phase1]
    by_cases hab : s.abortExec ≠ c
    · rw [if_pos hab]; exact ⟨[], by simp, rfl⟩
    · rw [if_neg hab]
      cases hgid : getFeatureIdMethod f with
      | error e => exact ⟨[], by simp, rfl⟩
      | ok id =>
        dsimp only
        by_cases hcl : (f.hasProps && f.isCluster) = true
        · rw [if_pos hcl]
          by_cases hok : env.fetchOk id = true
          · rw [if_pos hok]
            by_cases hab2 : s.abortExec + env.incrDuring i ≠ c
            · rw [if_pos hab2]
              exact ⟨[Effect.suspendResume (s.abortExec + env.incrDuring i), Effect.leavesWrite id],
                by simp, rfl⟩
            · rw [if_neg hab2]
              obtain ⟨d, hd, hall⟩ := ih
                { s with featuresMap := insertA s.featuresMap id f,
                         abortExec := s.abortExec + env.incrDuring i,
                         clusterLeaves := insertA s.clusterLeaves id (env.fetchLeaves id),
                         log := s.log ++ [Effect.suspendResume (s.abortExec + env.incrDuring i)]
                                ++ [Effect.leavesWrite id] } (i + 1)
              refine ⟨[Effect.suspendResume (s.abortExec + env.incrDuring i), Effect.leavesWrite id] ++ d, ?_, ?_⟩
              · rw [hd]; simp
              · simp only [List.all_append, hall, Bool.and_true]; rfl
          · rw [if_neg hok]
            by_cases hab2 : s.abortExec + env.incrDuring i ≠ c
            · rw [if_pos hab2]
              exact ⟨[Effect.suspendResume (s.abortExec + env.incrDuring i)], by simp, rfl⟩
            · rw [if_neg hab2]
              exact ⟨[Effect.suspendResume (s.abortExec + env.incrDuring i)], by simp, rfl⟩
        · rw [if_neg hcl]
          obtain ⟨d, hd, hall⟩ := ih { s with featuresMap := insertA s.featuresMap id f } i
          exact ⟨d, hd, hall⟩

/-- When the fetch loop runs to completion, the generation is still
current: every checkpoint passed. -/
theorem phase1_go_exec (c : Nat) (env : CycleEnv) (fs : List Feature) :
    ∀ (s : TCState) (i : Nat), s.abortExec = c →
      (phase1 c env s fs i).exit = Phase1Exit.go →
      (phase1 c env s fs i).state.abortExec = c := by
  induction fs with
  | nil => intro s i hs _; exact hs
  | cons f rest ih =>
    intro s i hs
    rw [phase1]
    rw [if_neg (by simp [hs])]
    cases hgid : getFeatureIdMethod f with
    | error e => intro hgo; cases hgo
    | ok id =>
      dsimp only
      by_cases hcl : (f.hasProps && f.isCluster) = true
      · rw [if_pos hcl]
        by_cases hok : env.fetchOk id = true
        · rw [if_pos hok]
          by_cases hab2 : s.abortExec + env.incrDuring i ≠ c
          · rw [if_pos hab2]; intro hgo; cases hgo
          · rw [if_neg hab2]
            push_neg at hab2
            exact ih _ (i + 1) hab2
        · rw [if_neg hok]
          by_cases hab2 : s.abortExec + env.incrDuring i ≠ c
          · rw [if_pos hab2]; intro hgo; cases hgo
          · rw [if_neg hab2]; intro hgo; cases hgo
      · rw [if_neg hcl]
        exact ih _ i hs

/-- A cluster feature in the query result whose leaf fetch fails forces
the fetch loop to exit early. -/
theorem phase1_failed_of_fetchFail (c : Nat) (env : CycleEnv) (fs : List Feature) :
    ∀ (s : TCState) (i : Nat) (f : Feature) (fid : String),
      f ∈ fs → (f.hasProps && f.isCluster) = true →
      getFeatureIdMethod f = Except.ok fid → env.fetchOk fid = false →
      (phase1 c env s fs i).exit ≠ Phase1Exit.go := by
  induction fs with
  | nil => intro s i f fid hmem; cases hmem
  | cons g rest ih =>
    intro s i f fid hmem hcl hid hfail
    rw [phase1]
    by_cases hab : s.abortExec ≠ c
    · rw [if_pos hab]; intro hgo; cases hgo
    · rw [if_neg hab]
      cases hgid : getFeatureIdMethod g with
      | error e => intro hgo; cases hgo
      | ok gid =>
        dsimp only
        rcases List.mem_cons.mp hmem with heq | hmem2
        · subst heq
          rw [if_pos hcl]
          have hsame : gid = fid := by
            rw [hgid] at hid
            exact ((Except.ok.injEq _ _).mp hid.symm).symm
          subst hsame
          rw [if_neg (by simp [hfail])]
          by_cases hab2 : s.abortExec + env.incrDuring i ≠ c
          · rw [if_pos hab2]; intro hgo; cases hgo
          · rw [if_neg hab2]; intro hgo; cases hgo
        · by_cases hgcl : (g.hasProps && g.isCluster) = true
          · rw [if_pos hgcl]
            by_cases hok : env.fetchOk gid = true
            · rw [if_pos hok]
              by_cases hab2 : s.abortExec + env.incrDuring i ≠ c
              · rw [if_pos hab2]; intro hgo; cases hgo
              · rw [if_neg hab2]
                exact ih _ (i + 1) f fid hmem2 hcl hid hfail
            · rw [if_neg hok]
              by_cases hab2 : s.abortExec + env.incrDuring i ≠ c
              · rw [if_pos hab2]; intro hgo; cases hgo
              · rw [if_neg hab2]; intro hgo; cases hgo
          · rw [if_neg hgcl]
            exact ih _ i f fid hmem2 hcl hid hfail

/-- Removing the pin never touches the generation counter or the
selection ids. -/
theorem resetPinMarker_fields (s : TCState) :
    (resetPinMarker s).abortExec = s.abortExec
    ∧ (resetPinMarker s).selectedFeatureId = s.selectedFeatureId
    ∧ (resetPinMarker s).markersOnScreen = s.markersOnScreen
    ∧ (resetPinMarker s).initialFeature = s.initialFeature := by
  cases h : s.pinMarker <;> simp [resetPinMarker, h]

/-- Rendering a pin never touches the generation counter or the
selection ids. -/
theorem renderPinMarker_fields (s : TCState) (lng lat dx dy : ℚ) :
    (renderPinMarker s lng lat dx dy).abortExec = s.abortExec
    ∧ (renderPinMarker s lng lat dx dy).selectedFeatureId = s.selectedFeatureId
    ∧ (renderPinMarker s lng lat dx dy).markersOnScreen = s.markersOnScreen
    ∧ (renderPinMarker s lng lat dx dy).initialFeature = s.initialFeature := by
  simp [renderPinMarker]

/-- Pinning into a cluster never touches the generation counter. -/
theorem renderPinMarkerInCluster_exec (s : TCState) (el : Element) (lng lat : ℚ) :
    (renderPinMarkerInCluster s el lng lat).1.abortExec = s.abortExec := by
  unfold renderPinMarkerInCluster
  split
  · exact (renderPinMarker_fields s lng lat 0 0).1
  · split
    · rfl
    · exact (renderPinMarker_fields s lng lat _ _).1

/-- The selected-feature pin block never touches the generation counter. -/
theorem pinBlockClusterSelected_exec (s : TCState) (id : String) (el : Element) (lng lat : ℚ) :
    (pinBlockClusterSelected s id el lng lat).1.abortExec = s.abortExec := by
  unfold pinBlockClusterSelected
  split
  · split
    · rfl
    · rfl
    · rw [renderPinMarkerInCluster_exec]
      rw [(resetPinMarker_fields _).1]
  · rfl

/-- Pair form of `renderPinMarkerInCluster_exec`, convenient after a
`split` on the returned pair. -/
theorem renderPinMarkerInCluster_exec_pair (t : TCState) (el : Element) (lng lat : ℚ)
    (s2 : TCState) (r : Option String) (h : renderPinMarkerInCluster t el lng lat = (s2, r)) :
    s2.abortExec = t.abortExec := by
  have h2 := renderPinMarkerInCluster_exec t el lng lat
  rw [h] at h2
  exact h2

/-- The cluster initial-feature pin block never touches the generation
counter. -/
theorem pinBlockClusterInitial_exec (s : TCState) (id : String) (el : Element) (lng lat : ℚ) :
    (pinBlockClusterInitial s id el lng lat).1.abortExec = s.abortExec := by
  unfold pinBlockClusterInitial
  split
  · rfl
  · split
    · rfl
    · split
      · rfl
      · rfl
      · dsimp only
        split
        next s2 e heq =>
          have h2 := renderPinMarkerInCluster_exec_pair _ _ _ _ _ _ heq
          exact h2
        next s2 heq =>
          have h2 := renderPinMarkerInCluster_exec_pair _ _ _ _ _ _ heq
          exact h2

/-- The plain-marker re-pin block never touches the generation counter. -/
theorem pinBlockPlainSelected_exec (s : TCState) (id : String) (lng lat : ℚ) :
    (pinBlockPlainSelected s id lng lat).abortExec = s.abortExec := by
  unfold pinBlockPlainSelected
  split
  · split
    · rw [(renderPinMarker_fields _ lng lat 0 0).1, (resetPinMarker_fields s).1]
    · rfl
  · rfl

/-- The plain-marker initial-feature block never touches the generation
counter. -/
theorem pinBlockPlainInitial_exec (s : TCState) (id : String) (lng lat : ℚ) :
    (pinBlockPlainInitial s id lng lat).1.abortExec = s.abortExec := by
  unfold pinBlockPlainInitial
  split
  · rfl
  · split
    · rfl
    · split
      · rw [(renderPinMarker_fields _ lng lat 0 0).1]
      · rfl

/-- The post-creation pin blocks never touch the generation counter. -/
theorem clusterMarkerPinBlocks_exec (s : TCState) (id : String) (el : Element) (lng lat : ℚ) :
    (clusterMarkerPinBlocks s id el lng lat).1.abortExec = s.abortExec := by
  unfold clusterMarkerPinBlocks
  dsimp only
  split
  next s2 e heq =>
    have h3 := pinBlockClusterSelected_exec (pushLog s (Effect.markerAdd id)) id el lng lat
    rw [heq] at h3
    exact h3
  next s2 heq =>
    have h3 := pinBlockClusterSelected_exec (pushLog s (Effect.markerAdd id)) id el lng lat
    rw [heq] at h3
    split
    next s3 e heq2 =>
      have h4 := pinBlockClusterInitial_exec s2 id el lng lat
      rw [heq2] at h4
      exact h4.trans h3
    next s3 heq2 =>
      have h4 := pinBlockClusterInitial_exec s2 id el lng lat
      rw [heq2] at h4
      exact h4.trans h3

/-- Building a cluster marker never touches the generation counter. -/
theorem createClusterMarker_exec (opts : Opts) (env : CycleEnv) (minL maxL : Bool)
    (s : TCState) (id : String) (leaves : List Feature) (lng lat : ℚ) :
    (createClusterMarker opts env minL maxL s id leaves lng lat).1.abortExec = s.abortExec := by
  unfold createClusterMarker
  split
  · rfl
  · exact clusterMarkerPinBlocks_exec s id _ lng lat

/-- Pair form of `createClusterMarker_exec`. -/
theorem createClusterMarker_exec_pair {opts : Opts} {env : CycleEnv} {minL maxL : Bool}
    {t : TCState} {id : String} {leaves : List Feature} {lng lat : ℚ}
    {s2 : TCState} {r : Except String MarkerH}
    (h : createClusterMarker opts env minL maxL t id leaves lng lat = (s2, r)) :
    s2.abortExec = t.abortExec := by
  have h2 := createClusterMarker_exec opts env minL maxL t id leaves lng lat
  rw [h] at h2
  exact h2

/-- Pair form of `pinBlockPlainInitial_exec`. -/
theorem pinBlockPlainInitial_exec_pair {t : TCState} {id : String} {lng lat : ℚ}
    {s2 : TCState} {r : Option String}
    (h : pinBlockPlainInitial t id lng lat = (s2, r)) :
    s2.abortExec = t.abortExec := by
  have h2 := pinBlockPlainInitial_exec t id lng lat
  rw [h] at h2
  exact h2

/-- Processing one feature of the forEach pass never touches the
generation counter. -/
theorem processFeature_exec (opts : Opts) (env : CycleEnv) (minL maxL : Bool)
    (acc : Phase2Acc) (f : Feature) :
    (processFeature opts env minL maxL acc f).state.abortExec = acc.state.abortExec := by
  unfold processFeature
  split
  · rfl
  · split
    · rfl
    · split
      · rfl
      · dsimp only
        split
        · split
          · rfl
          · split
            next m hm =>
              split
              · rfl
              · rfl
            next hm =>
              split
              next s2 e heq =>
                refine (createClusterMarker_exec_pair heq).trans ?_
                split <;> rfl
              next s2 m heq =>
                refine (createClusterMarker_exec_pair heq).trans ?_
                split <;> rfl
        · split
          · rfl
          · split
            next s3 e heq =>
              refine (pinBlockPlainInitial_exec_pair heq).trans ?_
              rw [pinBlockPlainSelected_exec]
              rfl
            next s3 heq =>
              refine (pinBlockPlainInitial_exec_pair heq).trans ?_
              rw [pinBlockPlainSelected_exec]
              rfl

/-- The forEach pass never touches the generation counter. -/
theorem phase2Fold_exec (opts : Opts) (env : CycleEnv) (minL maxL : Bool)
    (ps : List (String × Feature)) :
    ∀ (acc : Phase2Acc),
      (ps.foldl (fun a p => processFeature opts env minL maxL a p.2) acc).state.abortExec
        = acc.state.abortExec := by
  induction ps with
  | nil => intro acc; rfl
  | cons p rest ih =>
    intro acc
    rw [List.foldl_cons]
    exact (ih _).trans (processFeature_exec opts env minL maxL acc p.2)

/-- One step of the stale-marker sweep only appends to the log. -/
theorem removalFold_fields (newMarkers : List (String × MarkerH)) (l : List (String × MarkerH)) :
    ∀ (t : TCState),
      (l.foldl (fun u p => if (lookupA newMarkers p.1).isSome then u
          else pushLog u (Effect.markerRemove p.1)) t).abortExec = t.abortExec
      ∧ (l.foldl (fun u p => if (lookupA newMarkers p.1).isSome then u
          else pushLog u (Effect.markerRemove p.1)) t).pinMarker = t.pinMarker
      ∧ (l.foldl (fun u p => if (lookupA newMarkers p.1).isSome then u
          else pushLog u (Effect.markerRemove p.1)) t).selectedFeatureId = t.selectedFeatureId
      ∧ (l.foldl (fun u p => if (lookupA newMarkers p.1).isSome then u
          else pushLog u (Effect.markerRemove p.1)) t).selectedClusterId = t.selectedClusterId
      ∧ (l.foldl (fun u p => if (lookupA newMarkers p.1).isSome then u
          else pushLog u (Effect.markerRemove p.1)) t).pinsOnMap = t.pinsOnMap
      ∧ (l.foldl (fun u p => if (lookupA newMarkers p.1).isSome then u
          else pushLog u (Effect.markerRemove p.1)) t).initialFeature = t.initialFeature
      ∧ (l.foldl (fun u p => if (lookupA newMarkers p.1).isSome then u
          else pushLog u (Effect.markerRemove p.1)) t).markersOnScreen = t.markersOnScreen := by
  induction l with
  | nil => intro t; exact ⟨rfl, rfl, rfl, rfl, rfl, rfl, rfl⟩
  | cons p rest ih =>
    intro t
    rw [List.foldl_cons]
    by_cases hp : (lookupA newMarkers p.1).isSome = true
    · rw [if_pos hp]
      exact ih t
    · rw [if_neg hp]
      obtain ⟨h1, h2, h3, h4, h5, h6, h7⟩ := ih (pushLog t (Effect.markerRemove p.1))
      exact ⟨h1, h2, h3, h4, h5, h6, h7⟩

/-- The stale-marker sweep only appends to the log. -/
theorem removalLoop_fields (s : TCState) (newMarkers : List (String × MarkerH)) :
    (removalLoop s newMarkers).abortExec = s.abortExec
    ∧ (removalLoop s newMarkers).pinMarker = s.pinMarker
    ∧ (removalLoop s newMarkers).selectedFeatureId = s.selectedFeatureId
    ∧ (removalLoop s newMarkers).selectedClusterId = s.selectedClusterId
    ∧ (removalLoop s newMarkers).pinsOnMap = s.pinsOnMap
    ∧ (removalLoop s newMarkers).initialFeature = s.initialFeature
    ∧ (removalLoop s newMarkers).markersOnScreen = s.markersOnScreen := by
  exact removalFold_fields newMarkers s.markersOnScreen s

/-- The trailing initial-feature block never touches the generation
counter. -/
theorem tailInitial_exec (s : TCState) (newMarkers : List (String × MarkerH)) :
    (tailInitial s newMarkers).abortExec = s.abortExec := by
  unfold tailInitial
  split
  · rfl
  · split
    · split
      · rfl
      · split
        · rfl
        · dsimp only
          rw [(renderPinMarker_fields _ _ _ 0 0).1]
    · rfl

/-- Unfolded form of `renderCustom` when the `shouldRender` guard
passes. -/
theorem renderCustom_eq_of_ready (opts : Opts) (c : Nat) (env : CycleEnv) (s : TCState)
    (h : (env.ready && (s.abortExec == c)) = true) :
    renderCustom opts c env s =
      (let s0 : TCState := { s with clusterLeaves := [], featuresMap := [] }
       let p1 := phase1 c env s0 env.features 0
       match p1.exit with
       | Phase1Exit.go =>
         let acc := p1.state.featuresMap.foldl
           (fun a p => processFeature opts env (decide (opts.clusterMinZoom ≤ env.zoom))
             (decide (opts.clusterMaxZoom ≤ env.zoom)) a p.2)
           { state := p1.state, newMarkers := [], err := none }
         match acc.err with
         | some _ => acc.state
         | none => tailInitial (removalLoop acc.state acc.newMarkers) acc.newMarkers
       | _ => p1.state) := by
  unfold renderCustom
  rw [if_neg]
  simp [h]

/-- A cycle whose fetch loop completes ends with the generation still
current. -/
theorem renderCustom_exec_of_go (opts : Opts) (c : Nat) (env : CycleEnv) (s : TCState)
    (hready : (env.ready && (s.abortExec == c)) = true)
    (hs : s.abortExec = c)
    (hexit : (phase1 c env { s with clusterLeaves := [], featuresMap := [] } env.features 0).exit
      = Phase1Exit.go) :
    (renderCustom opts c env s).abortExec = c := by
  rw [renderCustom_eq_of_ready opts c env s hready]
  dsimp only
  rw [hexit]
  have hexec : (phase1 c env { s with clusterLeaves := [], featuresMap := [] } env.features 0).state.abortExec = c :=
    phase1_go_exec c env env.features _ 0 hs hexit
  dsimp only
  split
  next heq =>
    rw [phase2Fold_exec]
    exact hexec
  next heq =>
    rw [tailInitial_exec, (removalLoop_fields _ _).1, phase2Fold_exec]
    exact hexec

/-- A cycle whose fetch loop exits early returns the fetch-loop state:
nothing after the loop runs. -/
theorem renderCustom_eq_of_not_go (opts : Opts) (c : Nat) (env : CycleEnv) (s : TCState)
    (hready : (env.ready && (s.abortExec == c)) = true)
    (hexit : (phase1 c env { s with clusterLeaves := [], featuresMap := [] } env.features 0).exit
      ≠ Phase1Exit.go) :
    renderCustom opts c env s
      = (phase1 c env { s with clusterLeaves := [], featuresMap := [] } env.features 0).state := by
  rw [renderCustom_eq_of_ready opts c env s hready]
  dsimp only
  cases hx : (phase1 c env { s with clusterLeaves := [], featuresMap := [] } env.features 0).exit with
  | go => exact absurd hx hexit
  | abortedLoop => rfl
  | abortedFetch => rfl
  | failed => rfl
  | threw e => rfl

/-- C2: a cycle during which the generation advanced (a newer cycle was
triggered while its leaf fetch was pending) returns at a generation
checkpoint before assigning `markersOnScreen`: the on-screen marker map
is exactly the one from before the cycle, and no commit effect is logged
by the cycle. -/
theorem c2_stale_cycle_never_commits (opts : Opts) (c : Nat) (env : CycleEnv) (s : TCState)
    (hs : s.abortExec = c)
    (hstale : (renderCustom opts c env s).abortExec ≠ c) :
    (renderCustom opts c env s).markersOnScreen = s.markersOnScreen
    ∧ ((renderCustom opts c env s).log.drop s.log.length).all
        (fun e => !(e == Effect.markersAssign)) = true := by
  by_cases hready : (env.ready && (s.abortExec == c)) = true
  · by_cases hexit : (phase1 c env { s with clusterLeaves := [], featuresMap := [] } env.features 0).exit
        = Phase1Exit.go
    · exact absurd (renderCustom_exec_of_go opts c env s hready hs hexit) hstale
    · rw [renderCustom_eq_of_not_go opts c env s hready hexit]
      refine ⟨(phase1_preserves c env env.features _ 0).1, ?_⟩
      obtain ⟨d, hd, hall⟩ := phase1_log c env env.features { s with clusterLeaves := [], featuresMap := [] } 0
      rw [hd]
      show ((s.log ++ d).drop s.log.length).all _ = true
      rw [List.drop_left]
      refine List.all_eq_true.mpr ?_
      intro e he
      have h2 := List.all_eq_true.mp hall e he
      cases e <;> simp_all [isMarkerEffect]
  · have hr : renderCustom opts c env s = s := by
      unfold renderCustom
      rw [if_pos]
      simp only [Bool.not_eq_true']
      simpa using hready
    rw [hr] at hstale
    exact absurd hs hstale

/-- Pinning into a cluster never touches the on-screen marker map. -/
theorem renderPinMarkerInCluster_markers (s : TCState) (el : Element) (lng lat : ℚ) :
    (renderPinMarkerInCluster s el lng lat).1.markersOnScreen = s.markersOnScreen := by
  unfold renderPinMarkerInCluster
  split
  · exact (renderPinMarker_fields s lng lat 0 0).2.2.1
  · split
    · rfl
    · exact (renderPinMarker_fields s lng lat _ _).2.2.1

/-- Pair form of `renderPinMarkerInCluster_markers`. -/
theorem renderPinMarkerInCluster_markers_pair {t : TCState} {el : Element} {lng lat : ℚ}
    {s2 : TCState} {r : Option String} (h : renderPinMarkerInCluster t el lng lat = (s2, r)) :
    s2.markersOnScreen = t.markersOnScreen := by
  have h2 := renderPinMarkerInCluster_markers t el lng lat
  rw [h] at h2
  exact h2

/-- The selected-feature pin block never touches the on-screen marker
map. -/
theorem pinBlockClusterSelected_markers (s : TCState) (id : String) (el : Element) (lng lat : ℚ) :
    (pinBlockClusterSelected s id el lng lat).1.markersOnScreen = s.markersOnScreen := by
  unfold pinBlockClusterSelected
  split
  · split
    · rfl
    · rfl
    · rw [renderPinMarkerInCluster_markers]
      rw [(resetPinMarker_fields _).2.2.1]
  · rfl

/-- The cluster initial-feature pin block never touches the on-screen
marker map. -/
theorem pinBlockClusterInitial_markers (s : TCState) (id : String) (el : Element) (lng lat : ℚ) :
    (pinBlockClusterInitial s id el lng lat).1.markersOnScreen = s.markersOnScreen := by
  unfold pinBlockClusterInitial
  split
  · rfl
  · split
    · rfl
    · split
      · rfl
      · rfl
      · dsimp only
        split
        next s2 e heq =>
          have h2 := renderPinMarkerInCluster_markers_pair heq
          exact h2
        next s2 heq =>
          have h2 := renderPinMarkerInCluster_markers_pair heq
          exact h2

/-- The post-creation pin blocks never touch the on-screen marker map. -/
theorem clusterMarkerPinBlocks_markers (s : TCState) (id : String) (el : Element) (lng lat : ℚ) :
    (clusterMarkerPinBlocks s id el lng lat).1.markersOnScreen = s.markersOnScreen := by
  unfold clusterMarkerPinBlocks
  dsimp only
  split
  next s2 e heq =>
    have h3 := pinBlockClusterSelected_markers (pushLog s (Effect.markerAdd id)) id el lng lat
    rw [heq] at h3
    exact h3
  next s2 heq =>
    have h3 := pinBlockClusterSelected_markers (pushLog s (Effect.markerAdd id)) id el lng lat
    rw [heq] at h3
    split
    next s3 e heq2 =>
      have h4 := pinBlockClusterInitial_markers s2 id el lng lat
      rw [heq2] at h4
      exact h4.trans h3
    next s3 heq2 =>
      have h4 := pinBlockClusterInitial_markers s2 id el lng lat
      rw [heq2] at h4
      exact h4.trans h3

/-- Building a cluster marker never touches the on-screen marker map. -/
theorem createClusterMarker_markers (opts : Opts) (env : CycleEnv) (minL maxL : Bool)
    (s : TCState) (id : String) (leaves : List Feature) (lng lat : ℚ) :
    (createClusterMarker opts env minL maxL s id leaves lng lat).1.markersOnScreen
      = s.markersOnScreen := by
  unfold createClusterMarker
  split
  · rfl
  · exact clusterMarkerPinBlocks_markers s id _ lng lat

/-- Pair form of `createClusterMarker_markers`. -/
theorem createClusterMarker_markers_pair {opts : Opts} {env : CycleEnv} {minL maxL : Bool}
    {t : TCState} {id : String} {leaves : List Feature} {lng lat : ℚ}
    {s2 : TCState} {r : Except String MarkerH}
    (h : createClusterMarker opts env minL maxL t id leaves lng lat = (s2, r)) :
    s2.markersOnScreen = t.markersOnScreen := by
  have h2 := createClusterMarker_markers opts env minL maxL t id leaves lng lat
  rw [h] at h2
  exact h2

/-- C3 amended: with a marker already on screen for the feature id, the
forEach pass reuses it unchanged for every non-cluster feature; for a
cluster feature it reuses it exactly when the marker representation and
both zoom limits agree (unfolded at or above both limits, collapsed below
both); in every other case the existing cluster marker is destroyed
(removed from the map and deleted from the on-screen map) and rebuilt,
even when identity, zoom classification and membership are unchanged
since the previous cycle. -/
theorem c3_marker_reuse (opts : Opts) (env : CycleEnv) (minL maxL : Bool)
    (acc : Phase2Acc) (f : Feature) (id : String) (lng lat : ℚ) (m : MarkerH)
    (herr : acc.err = none)
    (hid : getFeatureIdMethod f = Except.ok id)
    (hgeom : f.geom = Geom.point lng lat)
    (hmk : lookupA acc.state.markersOnScreen id = some m) :
    (f.isCluster = false →
      processFeature opts env minL maxL acc f
        = { acc with newMarkers := insertA acc.newMarkers id m })
    ∧ (∀ leaves, f.isCluster = true → lookupA acc.state.clusterLeaves id = some leaves →
        (((m.element.unfolded = true ∧ maxL = true ∧ minL = true)
            ∨ (m.element.unfolded = false ∧ maxL = false ∧ minL = false)) →
          processFeature opts env minL maxL acc f
            = { acc with newMarkers := insertA acc.newMarkers id m })
        ∧ (¬((m.element.unfolded = true ∧ maxL = true ∧ minL = true)
            ∨ (m.element.unfolded = false ∧ maxL = false ∧ minL = false)) →
          (processFeature opts env minL maxL acc f).state.markersOnScreen
            = eraseA acc.state.markersOnScreen id)) := by
  constructor
  · intro hc
    unfold processFeature
    simp [herr, hid, hgeom, hc, hmk]
  · intro leaves hc hleaves
    have hreuse : ∀ u : Bool, m.element.unfolded = u →
        ((u = true ∧ maxL = true ∧ minL = true) ∨ (u = false ∧ maxL = false ∧ minL = false)) →
        teardownCond maxL minL (some m) true = false := by
      intro u hu hcond
      rcases hcond with ⟨h1, h2, h3⟩ | ⟨h1, h2, h3⟩ <;>
        simp [teardownCond, hu, h1, h2, h3]
    constructor
    · intro hcond
      have htd : teardownCond maxL minL (some m) true = false :=
        hreuse m.element.unfolded rfl hcond
      unfold processFeature
      simp [herr, hid, hgeom, hc, hleaves, hmk, htd]
    · intro hcond
      have htd : teardownCond maxL minL (some m) true = true := by
        cases hu : m.element.unfolded <;> cases hmax : maxL <;> cases hmin : minL <;>
          simp_all [teardownCond]
      unfold processFeature
      simp only [herr, hid, hgeom, hc, hleaves, hmk, Option.isSome_some, htd, if_true]
      split
      next s2 e heq =>
        have h2 := createClusterMarker_markers_pair heq
        rw [h2]
      next s2 m2 heq =>
        have h2 := createClusterMarker_markers_pair heq
        rw [h2]

/-- Witness for C2: with one cluster feature and one increment arriving
during its pending fetch, the cycle holding token 1 ends stale and leaves
the empty on-screen map untouched, with no commit logged. -/
theorem c2_stale_cycle_never_commits_witness :
    (renderCustom demoOpts 1 demoStaleEnv demoStart).markersOnScreen = demoStart.markersOnScreen
    ∧ ((renderCustom demoOpts 1 demoStaleEnv demoStart).log.drop demoStart.log.length).all
        (fun e => !(e == Effect.markersAssign)) = true :=
  c2_stale_cycle_never_commits demoOpts 1 demoStaleEnv demoStart rfl (by decide)

/-- C8 counterexample: the stale cycle of the C2 witness environment
still writes the cluster-leaves cache after its suspension point: its log
is exactly a resumption with the advanced generation 2 followed by a
cache write, performed while the cycle token 1 was no longer current, and
the cache ends up holding the fetched leaves. -/
theorem c8_counterexample :
    (renderCustom demoOpts 1 demoStaleEnv demoStart).log
      = [Effect.suspendResume 2, Effect.leavesWrite "1"]
    ∧ (renderCustom demoOpts 1 demoStaleEnv demoStart).abortExec = 2
    ∧ (renderCustom demoOpts 1 demoStaleEnv demoStart).clusterLeaves
      = [("1", [demoLeafA, demoLeafB, demoLeafC])] := by
  refine ⟨by decide, by decide, by decide⟩

/-- C8 amended: `markersOnScreen`, the selection state and the pin are
mutated only by the synchronous tail of a cycle that still holds the
current generation: a cycle that went stale leaves all of them exactly as
they were (only the cluster-leaves cache, the features map and the log
may have been written after a suspension point). -/
theorem c8_stale_cycle_mutations (opts : Opts) (c : Nat) (env : CycleEnv) (s : TCState)
    (hs : s.abortExec = c)
    (hstale : (renderCustom opts c env s).abortExec ≠ c) :
    (renderCustom opts c env s).markersOnScreen = s.markersOnScreen
    ∧ (renderCustom opts c env s).selectedFeatureId = s.selectedFeatureId
    ∧ (renderCustom opts c env s).selectedClusterId = s.selectedClusterId
    ∧ (renderCustom opts c env s).pinMarker = s.pinMarker
    ∧ (renderCustom opts c env s).pinsOnMap = s.pinsOnMap := by
  by_cases hready : (env.ready && (s.abortExec == c)) = true
  · by_cases hexit : (phase1 c env { s with clusterLeaves := [], featuresMap := [] } env.features 0).exit
        = Phase1Exit.go
    · exact absurd (renderCustom_exec_of_go opts c env s hready hs hexit) hstale
    · rw [renderCustom_eq_of_not_go opts c env s hready hexit]
      obtain ⟨h1, h2, h3, h4, h5, h6⟩ := phase1_preserves c env env.features
        { s with clusterLeaves := [], featuresMap := [] } 0
      exact ⟨h1, h3, h4, h2, h5⟩
  · have hr : renderCustom opts c env s = s := by
      unfold renderCustom
      rw [if_pos]
      simp only [Bool.not_eq_true']
      simpa using hready
    rw [hr] at hstale
    exact absurd hs hstale

/-- Witness for the C8 amended theorem at the stale demo run. -/
theorem c8_stale_cycle_mutations_witness :
    (renderCustom demoOpts 1 demoStaleEnv demoStart).markersOnScreen = demoStart.markersOnScreen
    ∧ (renderCustom demoOpts 1 demoStaleEnv demoStart).selectedFeatureId = demoStart.selectedFeatureId
    ∧ (renderCustom demoOpts 1 demoStaleEnv demoStart).selectedClusterId = demoStart.selectedClusterId
    ∧ (renderCustom demoOpts 1 demoStaleEnv demoStart).pinMarker = demoStart.pinMarker
    ∧ (renderCustom demoOpts 1 demoStaleEnv demoStart).pinsOnMap = demoStart.pinsOnMap :=
  c8_stale_cycle_mutations demoOpts 1 demoStaleEnv demoStart rfl (by decide)

/-- C3 counterexample: two consecutive committed cycles over the very
same environment (same features, same zoom 10 inside the zoom band, same
3-leaf cluster with id `1`, same unfolded representation both times)
destroy the cluster marker once and create it twice — the claim requires
zero destroy and zero create operations for this unchanged feature.
Both cycles commit (two `markersAssign` effects). -/
theorem c3_counterexample :
    ((triggerRender demoOpts demoEnv (triggerRender demoOpts demoEnv (initState none))).log.count
        (Effect.markerRemove "1") = 1)
    ∧ ((triggerRender demoOpts demoEnv (triggerRender demoOpts demoEnv (initState none))).log.count
        (Effect.markerAdd "1") = 2)
    ∧ ((triggerRender demoOpts demoEnv (triggerRender demoOpts demoEnv (initState none))).log.count
        Effect.markersAssign = 2) := by
  refine ⟨by decide, by decide, by decide⟩

/-- Witness for the C3 amended theorem: at zoom 10 with the default
limits (`minZoomLimit = true`, `maxZoomLimit = false`) the plain marker
`a` is reused unchanged, while the unchanged unfolded cluster marker `1`
is torn down: it disappears from the on-screen map. -/
theorem c3_marker_reuse_witness :
    processFeature demoOpts demoEnv true false c3Acc demoLeafA
      = { c3Acc with newMarkers := insertA c3Acc.newMarkers "a" c3MarkerA }
    ∧ (processFeature demoOpts demoEnv true false c3Acc demoCluster).state.markersOnScreen
      = eraseA c3Acc.state.markersOnScreen "1" := by
  constructor
  · exact (c3_marker_reuse demoOpts demoEnv true false c3Acc demoLeafA "a" 1 1 _
      rfl rfl rfl (by decide)).1 rfl
  · exact ((c3_marker_reuse demoOpts demoEnv true false c3Acc demoCluster "1" 1 2
      c3MarkerCl rfl rfl rfl (by decide)).2 [demoLeafA, demoLeafB, demoLeafC] rfl
      (by decide)).2 (by decide)

/-- C5: when the leaf fetch of any cluster feature in the query result
fails, the whole cycle is aborted before any marker operation: the
on-screen marker map is untouched and no marker, pin, or commit effect is
logged by the cycle. -/
theorem c5_fetch_failure_aborts_cycle (opts : Opts) (c : Nat) (env : CycleEnv) (s : TCState)
    (f : Feature) (fid : String)
    (hmem : f ∈ env.features)
    (hcl : (f.hasProps && f.isCluster) = true)
    (hid : getFeatureIdMethod f = Except.ok fid)
    (hfail : env.fetchOk fid = false) :
    (renderCustom opts c env s).markersOnScreen = s.markersOnScreen
    ∧ ((renderCustom opts c env s).log.drop s.log.length).all
        (fun e => !isMarkerEffect e) = true := by
  by_cases hready : (env.ready && (s.abortExec == c)) = true
  · have hexit := phase1_failed_of_fetchFail c env env.features
      { s with clusterLeaves := [], featuresMap := [] } 0 f fid hmem hcl hid hfail
    rw [renderCustom_eq_of_not_go opts c env s hready hexit]
    refine ⟨(phase1_preserves c env env.features _ 0).1, ?_⟩
    obtain ⟨d, hd, hall⟩ := phase1_log c env env.features
      { s with clusterLeaves := [], featuresMap := [] } 0
    rw [hd]
    show ((s.log ++ d).drop s.log.length).all _ = true
    rw [List.drop_left]
    exact hall
  · have hr : renderCustom opts c env s = s := by
      unfold renderCustom
      rw [if_pos]
      simp only [Bool.not_eq_true']
      simpa using hready
    rw [hr]
    simp

/-- Witness for C5: the demo cluster with a failing fetch leaves the
marker map empty and logs no marker effect. -/
theorem c5_fetch_failure_aborts_cycle_witness :
    (renderCustom demoOpts 1 demoFailEnv demoStart).markersOnScreen = demoStart.markersOnScreen
    ∧ ((renderCustom demoOpts 1 demoFailEnv demoStart).log.drop demoStart.log.length).all
        (fun e => !isMarkerEffect e) = true :=
  c5_fetch_failure_aborts_cycle demoOpts 1 demoFailEnv demoStart demoCluster "1"
    (by decide) rfl rfl rfl

/-- The invariant only depends on the pin and selection fields. -/
theorem pinSelInv_of_eq {t u : TCState}
    (hp : t.pinMarker = u.pinMarker) (hs : t.selectedFeatureId = u.selectedFeatureId)
    (h : pinSelInv u) : pinSelInv t := by
  intro hpin
  rw [hs]
  exact h (hp ▸ hpin)

/-- Removing the pin always leaves the field null. -/
theorem resetPinMarker_pin_none (s : TCState) : (resetPinMarker s).pinMarker = none := by
  cases hp : s.pinMarker <;> simp [resetPinMarker, hp]

/-- Removing the pin preserves the invariant. -/
theorem pinSelInv_resetPinMarker (s : TCState) : pinSelInv (resetPinMarker s) := by
  intro hpin
  rw [resetPinMarker_pin_none] at hpin
  cases hpin

/-- Rendering a pin keeps the invariant as long as a selection id is
recorded. -/
theorem pinSelInv_renderPinMarker (s : TCState) (lng lat dx dy : ℚ)
    (hsel : s.selectedFeatureId.isSome = true) :
    pinSelInv (renderPinMarker s lng lat dx dy) := by
  intro _
  rw [(renderPinMarker_fields s lng lat dx dy).2.1]
  exact hsel

/-- Pinning into a cluster keeps the invariant as long as a selection id
is recorded. -/
theorem pinSelInv_renderPinMarkerInCluster (s : TCState) (el : Element) (lng lat : ℚ)
    (hsel : s.selectedFeatureId.isSome = true) :
    pinSelInv (renderPinMarkerInCluster s el lng lat).1 := by
  unfold renderPinMarkerInCluster
  split
  · exact pinSelInv_renderPinMarker s lng lat 0 0 hsel
  · split
    · intro _; exact hsel
    · exact pinSelInv_renderPinMarker s lng lat _ _ hsel

/-- Pair form of `pinSelInv_renderPinMarkerInCluster`. -/
theorem pinSelInv_renderPinMarkerInCluster_pair {t : TCState} {el : Element} {lng lat : ℚ}
    {s2 : TCState} {r : Option String}
    (h : renderPinMarkerInCluster t el lng lat = (s2, r))
    (hsel : t.selectedFeatureId.isSome = true) : pinSelInv s2 := by
  have h2 := pinSelInv_renderPinMarkerInCluster t el lng lat hsel
  rw [h] at h2
  exact h2

/-- The selected-feature pin block preserves the invariant. -/
theorem pinSelInv_pinBlockClusterSelected (s : TCState) (id : String) (el : Element)
    (lng lat : ℚ) (h : pinSelInv s) :
    pinSelInv (pinBlockClusterSelected s id el lng lat).1 := by
  unfold pinBlockClusterSelected
  split
  next p selId hp hsel =>
    split
    · exact h
    · exact h
    · apply pinSelInv_renderPinMarkerInCluster
      rw [(resetPinMarker_fields _).2.1]
      rw [hsel]
      rfl
  next hother => exact h

/-- The cluster initial-feature pin block preserves the invariant. -/
theorem pinSelInv_pinBlockClusterInitial (s : TCState) (id : String) (el : Element)
    (lng lat : ℚ) (h : pinSelInv s) :
    pinSelInv (pinBlockClusterInitial s id el lng lat).1 := by
  unfold pinBlockClusterInitial
  split
  · exact h
  · split
    · exact h
    · split
      · exact h
      · exact h
      · dsimp only
        split
        next s2 e heq =>
          exact pinSelInv_renderPinMarkerInCluster_pair heq rfl
        next s2 heq =>
          have h2 := pinSelInv_renderPinMarkerInCluster_pair heq rfl
          intro hpin
          exact h2 hpin

/-- The plain-marker re-pin block preserves the invariant. -/
theorem pinSelInv_pinBlockPlainSelected (s : TCState) (id : String) (lng lat : ℚ)
    (h : pinSelInv s) : pinSelInv (pinBlockPlainSelected s id lng lat) := by
  unfold pinBlockPlainSelected
  split
  · split
    next hsel =>
      apply pinSelInv_renderPinMarker
      rw [(resetPinMarker_fields _).2.1]
      rw [Option.isSome_iff_exists]
      exact ⟨id, by simpa using hsel⟩
    · exact h
  · exact h

/-- The plain-marker initial-feature block preserves the invariant. -/
theorem pinSelInv_pinBlockPlainInitial (s : TCState) (id : String) (lng lat : ℚ)
    (h : pinSelInv s) : pinSelInv (pinBlockPlainInitial s id lng lat).1 := by
  unfold pinBlockPlainInitial
  split
  · exact h
  · split
    · exact h
    · split
      · intro hpin
        rw [(renderPinMarker_fields _ lng lat 0 0).2.1]
        rfl
      · exact h

/-- The post-creation pin blocks preserve the invariant. -/
theorem pinSelInv_clusterMarkerPinBlocks (s : TCState) (id : String) (el : Element)
    (lng lat : ℚ) (h : pinSelInv s) :
    pinSelInv (clusterMarkerPinBlocks s id el lng lat).1 := by
  unfold clusterMarkerPinBlocks
  dsimp only
  split
  next s2 e heq =>
    have h2 := pinSelInv_pinBlockClusterSelected (pushLog s (Effect.markerAdd id)) id el lng lat h
    rw [heq] at h2
    exact h2
  next s2 heq =>
    have h2 := pinSelInv_pinBlockClusterSelected (pushLog s (Effect.markerAdd id)) id el lng lat h
    rw [heq] at h2
    split
    next s3 e heq2 =>
      have h3 := pinSelInv_pinBlockClusterInitial s2 id el lng lat h2
      rw [heq2] at h3
      exact h3
    next s3 heq2 =>
      have h3 := pinSelInv_pinBlockClusterInitial s2 id el lng lat h2
      rw [heq2] at h3
      exact h3

/-- Building a cluster marker preserves the invariant. -/
theorem pinSelInv_createClusterMarker (opts : Opts) (env : CycleEnv) (minL maxL : Bool)
    (s : TCState) (id : String) (leaves : List Feature) (lng lat : ℚ) (h : pinSelInv s) :
    pinSelInv (createClusterMarker opts env minL maxL s id leaves lng lat).1 := by
  unfold createClusterMarker
  split
  · exact h
  · exact pinSelInv_clusterMarkerPinBlocks s id _ lng lat h

/-- Pair form of `pinSelInv_createClusterMarker`. -/
theorem pinSelInv_createClusterMarker_pair {opts : Opts} {env : CycleEnv} {minL maxL : Bool}
    {t : TCState} {id : String} {leaves : List Feature} {lng lat : ℚ}
    {s2 : TCState} {r : Except String MarkerH}
    (heq : createClusterMarker opts env minL maxL t id leaves lng lat = (s2, r))
    (h : pinSelInv t) : pinSelInv s2 := by
  have h2 := pinSelInv_createClusterMarker opts env minL maxL t id leaves lng lat h
  rw [heq] at h2
  exact h2

/-- Pair form of `pinSelInv_pinBlockPlainInitial`. -/
theorem pinSelInv_pinBlockPlainInitial_pair {t : TCState} {id : String} {lng lat : ℚ}
    {s2 : TCState} {r : Option String}
    (heq : pinBlockPlainInitial t id lng lat = (s2, r))
    (h : pinSelInv t) : pinSelInv s2 := by
  have h2 := pinSelInv_pinBlockPlainInitial t id lng lat h
  rw [heq] at h2
  exact h2

/-- Processing one feature of the forEach pass preserves the invariant. -/
theorem pinSelInv_processFeature (opts : Opts) (env : CycleEnv) (minL maxL : Bool)
    (acc : Phase2Acc) (f : Feature) (h : pinSelInv acc.state) :
    pinSelInv (processFeature opts env minL maxL acc f).state := by
  unfold processFeature
  split
  · exact h
  · split
    · exact h
    · split
      · exact h
      · dsimp only
        split
        · split
          · exact h
          · split
            next m hm =>
              split
              · exact pinSelInv_of_eq rfl rfl h
              · exact h
            next hm =>
              split
              next s2 e heq =>
                refine pinSelInv_createClusterMarker_pair heq ?_
                split
                · exact pinSelInv_of_eq rfl rfl h
                · exact h
              next s2 m heq =>
                refine pinSelInv_createClusterMarker_pair heq ?_
                split
                · exact pinSelInv_of_eq rfl rfl h
                · exact h
        · split
          · exact h
          · split
            next s3 e heq =>
              refine pinSelInv_pinBlockPlainInitial_pair heq ?_
              exact pinSelInv_pinBlockPlainSelected _ _ _ _ (pinSelInv_of_eq rfl rfl h)
            next s3 heq =>
              refine pinSelInv_pinBlockPlainInitial_pair heq ?_
              exact pinSelInv_pinBlockPlainSelected _ _ _ _ (pinSelInv_of_eq rfl rfl h)

/-- The forEach pass preserves the invariant. -/
theorem pinSelInv_phase2Fold (opts : Opts) (env : CycleEnv) (minL maxL : Bool)
    (ps : List (String × Feature)) :
    ∀ (acc : Phase2Acc), pinSelInv acc.state →
      pinSelInv (ps.foldl (fun a p => processFeature opts env minL maxL a p.2) acc).state := by
  induction ps with
  | nil => intro acc h; exact h
  | cons p rest ih =>
    intro acc h
    rw [List.foldl_cons]
    exact ih _ (pinSelInv_processFeature opts env minL maxL acc p.2 h)

/-- The trailing initial-feature block and commit preserve the
invariant. -/
theorem pinSelInv_tailInitial (s : TCState) (newMarkers : List (String × MarkerH))
    (h : pinSelInv s) : pinSelInv (tailInitial s newMarkers) := by
  unfold tailInitial
  split
  · exact pinSelInv_of_eq rfl rfl h
  · split
    · split
      · exact h
      · split
        · exact h
        · dsimp only
          intro hpin
          rw [(renderPinMarker_fields _ _ _ 0 0).2.1]
          rfl
    · exact pinSelInv_of_eq rfl rfl h

/-- The stale-marker sweep preserves the invariant. -/
theorem pinSelInv_removalLoop (s : TCState) (newMarkers : List (String × MarkerH))
    (h : pinSelInv s) : pinSelInv (removalLoop s newMarkers) :=
  pinSelInv_of_eq (removalLoop_fields s newMarkers).2.1
    (removalLoop_fields s newMarkers).2.2.1 h

/-- A full `renderCustom` cycle preserves the invariant. -/
theorem pinSelInv_renderCustom (opts : Opts) (c : Nat) (env : CycleEnv) (s : TCState)
    (h : pinSelInv s) : pinSelInv (renderCustom opts c env s) := by
  unfold renderCustom
  split
  · exact h
  · dsimp only
    have hp1 := phase1_preserves c env env.features
      { s with clusterLeaves := [], featuresMap := [] } 0
    have hinv1 : pinSelInv (phase1 c env { s with clusterLeaves := [], featuresMap := [] }
        env.features 0).state :=
      pinSelInv_of_eq hp1.2.1 hp1.2.2.1 (pinSelInv_of_eq rfl rfl h)
    split
    · split
      next heq =>
        exact pinSelInv_phase2Fold opts env _ _ _ _ hinv1
      next heq =>
        exact pinSelInv_tailInitial _ _
          (pinSelInv_removalLoop _ _ (pinSelInv_phase2Fold opts env _ _ _ _ hinv1))
    · exact hinv1

/-- `resetSelectedFeature` establishes the invariant outright. -/
theorem pinSelInv_resetSelectedFeature (s : TCState) :
    pinSelInv (resetSelectedFeature s) :=
  pinSelInv_resetPinMarker _

/-- `setSelectedFeature` preserves the invariant. -/
theorem pinSelInv_setSelectedFeature (s : TCState) (f : Feature) (h : pinSelInv s) :
    pinSelInv (setSelectedFeature s f).1 := by
  unfold setSelectedFeature
  split
  · exact h
  · split
    · exact h
    · split
      · exact h
      · dsimp only
        apply pinSelInv_renderPinMarker
        rfl
    · dsimp only
      split
      · split
        · apply pinSelInv_renderPinMarker
          rfl
        · intro _
          rfl
      · split
        · intro _
          rfl
        · split
          · intro _
            rfl
          · apply pinSelInv_renderPinMarkerInCluster
            rfl

/-- `featureClickHandler` preserves the invariant. -/
theorem pinSelInv_featureClickHandler (s : TCState) (t : Bool) (f : Feature)
    (h : pinSelInv s) : pinSelInv (featureClickHandler s t f).1 := by
  unfold featureClickHandler
  split
  · exact h
  · split
    · exact h
    · split
      · exact h
      · split
        next s1 e heq =>
          have h2 := pinSelInv_setSelectedFeature s f h
          rw [heq] at h2
          exact h2
        next s1 heq =>
          have h2 := pinSelInv_setSelectedFeature s f h
          rw [heq] at h2
          exact h2

/-- C6 amended: in every reachable state of a `TeritorioCluster`
instance, whenever the `pinMarker` field is non-null a selected feature
id is recorded; however the claimed at-most-one-pin property fails: the
initial-feature placement paths of `renderCustom` render a fresh pin
without removing the existing one (see the counterexample). -/
theorem c6_pin_selection_invariant (opts : Opts) (s : TCState)
    (hreach : Reachable opts s) (hpin : s.pinMarker.isSome = true) :
    s.selectedFeatureId.isSome = true := by
  induction hreach with
  | init g => cases hpin
  | render env s hr ih =>
    exact pinSelInv_renderCustom opts (s.abortExec + 1) env
      { s with abortExec := s.abortExec + 1 }
      (pinSelInv_of_eq rfl rfl (fun hp => ih hp)) hpin
  | select f s hr ih =>
    exact pinSelInv_setSelectedFeature s f (fun hp => ih hp) hpin
  | reset s hr ih =>
    exact pinSelInv_resetSelectedFeature s hpin
  | click t f s hr ih =>
    exact pinSelInv_featureClickHandler s t f (fun hp => ih hp) hpin

/-- C6 counterexample: a reachable state carries two pin markers on the
map — construct with an initial feature, select an unrelated feature
before the first render, then render once: the initial-feature placement
path renders a new pin without removing the existing one. -/
theorem c6_counterexample : Reachable demoOpts c6End ∧ c6End.pinsOnMap = 2 := by
  refine ⟨?_, by decide⟩
  exact Reachable.render c6Env c6Mid
    (Reachable.select c6FeatureA (initState (some c6FeatureB))
      (Reachable.init (some c6FeatureB)))

/-- Witness for the C6 amended theorem: the state after selecting `A` is
reachable and carries a pin, so a selected feature id is recorded. -/
theorem c6_pin_selection_invariant_witness : c6Mid.selectedFeatureId.isSome = true :=
  c6_pin_selection_invariant demoOpts c6Mid
    (Reachable.select c6FeatureA (initState (some c6FeatureB))
      (Reachable.init (some c6FeatureB)))
    (by decide)
